import Mathlib

/-!
# Snake game: shallow embedding of `SNAKE_GAME.cpp`

The game logic of `SNAKE_GAME.cpp` (movement, collision, placement, event
handling and the body of the main loop) as pure Lean functions.

Conventions of the embedding:
* `int` coordinates and counters are mathematical integers (`Int`); in the game
  they stay far below `2^31`, so no signed overflow is involved.
* `Uint32` clock values are naturals reduced modulo `2^32`; the unsigned
  subtraction of the source is `u32sub`.
* `rand()` is a stream `rand : Nat → Nat` together with the number of calls
  made so far; the `k`-th call returns `rand k`.
* the unbounded `while (!validPosition)` loops take a `fuel` argument and
  return `none` when it runs out; `front()` on an empty vector (undefined
  behaviour in the source) is `none` as well.
-/

namespace SnakeGame

/-! ## Constants and data model (lines 9-37) -/

def SCREEN_WIDTH : Int := 800
def SCREEN_HEIGHT : Int := 600
def SNAKE_SIZE : Int := 25
def OBSTACLE_SIZE : Int := 50

inductive Direction where
  | UP | DOWN | LEFT | RIGHT
  deriving DecidableEq, Repr

inductive GameState where
  | MENU | PLAYING | GAME_OVER | PAUSED | LEVEL_UP | COUNTDOWN
  deriving DecidableEq, Repr

structure SnakeSegment where
  x : Int
  y : Int
  deriving DecidableEq, Repr

structure SDL_Rect where
  x : Int
  y : Int
  w : Int
  h : Int
  deriving DecidableEq, Repr

structure RandomSnake where
  segments : List SnakeSegment
  direction : Direction
  lastMoveTime : Nat
  moveInterval : Int
  deriving DecidableEq, Repr

/-- The modulus of `Uint32` arithmetic. -/
def UINT32 : Nat := 4294967296

/-- Unsigned 32-bit subtraction `a - b`. -/
def u32sub (a b : Nat) : Nat := (UINT32 + a % UINT32 - b % UINT32) % UINT32

/-- The value of `static_cast<Direction>(n)` for `n = rand() % 4`. -/
def directionOfNat (n : Nat) : Direction :=
  match n with
  | 0 => Direction.UP
  | 1 => Direction.DOWN
  | 2 => Direction.LEFT
  | _ => Direction.RIGHT

/-- Lines 60-62. -/
def customMax (a b : Int) : Int := if a > b then a else b

/-! ## Movement (lines 439-493) -/

/-- The `switch (direction)` of lines 441-446 and 465-470: the head moved by
one cell. -/
def shiftHead (head : SnakeSegment) (direction : Direction) : SnakeSegment :=
  match direction with
  | Direction.UP => { head with y := head.y - SNAKE_SIZE }
  | Direction.DOWN => { head with y := head.y + SNAKE_SIZE }
  | Direction.LEFT => { head with x := head.x - SNAKE_SIZE }
  | Direction.RIGHT => { head with x := head.x + SNAKE_SIZE }

/-- Lines 439-453. Returns the new snake and the new value of `grow`. -/
def updateSnake (snake : List SnakeSegment) (direction : Direction) (grow : Bool) :
    Option (List SnakeSegment × Bool) :=
  match snake with
  | [] => none
  | front :: _ =>
    let newHead := shiftHead front direction
    let snake1 := newHead :: snake
    if !grow then some (snake1.dropLast, grow) else some (snake1, false)

/-- The rectangle test of lines 480-481 and 529-530: the 25x25 square at
`p` against the rectangle `o`. -/
def hitsRect (p : SnakeSegment) (o : SDL_Rect) : Bool :=
  decide (p.x < o.x + o.w) && decide (p.x + SNAKE_SIZE > o.x) &&
  decide (p.y < o.y + o.h) && decide (p.y + SNAKE_SIZE > o.y)

/-- Lines 473-476: the wrap of the candidate head around the board. -/
def wrapHead (h : SnakeSegment) : SnakeSegment :=
  let x1 := if h.x < 0 then SCREEN_WIDTH - SNAKE_SIZE
            else if h.x >= SCREEN_WIDTH then 0 else h.x
  let y1 := if h.y < 0 then SCREEN_HEIGHT - SNAKE_SIZE
            else if h.y >= SCREEN_HEIGHT then 0 else h.y
  { x := x1, y := y1 }

/-- Lines 456-493. `pos` is the number of `rand()` calls made before; the
result carries the number made after. -/
def updateRandomSnake (rand : Nat → Nat) (pos : Nat) (randomSnake : RandomSnake)
    (obstacles : List SDL_Rect) (currentTime : Nat) : Option (RandomSnake × Nat) :=
  if u32sub currentTime randomSnake.lastMoveTime >
      Int.toNat (randomSnake.moveInterval % (UINT32 : Int)) then
    let change := decide (rand pos % 4 = 0)
    let direction1 :=
      if change then directionOfNat (rand (pos + 1) % 4) else randomSnake.direction
    let pos1 := if change then pos + 2 else pos + 1
    match randomSnake.segments with
    | [] => none
    | front :: _ =>
      let newHead := wrapHead (shiftHead front direction1)
      let collision := obstacles.any (fun o => hitsRect newHead o)
      if !collision then
        some ({ randomSnake with
                  segments := (newHead :: randomSnake.segments).dropLast,
                  direction := direction1,
                  lastMoveTime := currentTime % UINT32 }, pos1)
      else
        some ({ randomSnake with direction := direction1 }, pos1)
  else
    some (randomSnake, pos)

/-! ## Collision tests (lines 496-535) -/

/-- Lines 497-499. -/
def checkFoodCollision (foodX foodY : Int) (head : SnakeSegment) : Bool :=
  head.x == foodX && head.y == foodY

/-- Lines 502-504. -/
def checkBananaCollision (bananaX bananaY : Int) (head : SnakeSegment) : Bool :=
  head.x == bananaX && head.y == bananaY

/-- Lines 507-515. -/
def checkRandomSnakeCollision (snake : List SnakeSegment) (randomSnake : RandomSnake) :
    Option Bool :=
  match snake with
  | [] => none
  | head :: _ =>
    some (randomSnake.segments.any (fun segment => head.x == segment.x && head.y == segment.y))

/-- Lines 517-535. -/
def checkCollision (snake : List SnakeSegment) (obstacles : List SDL_Rect) : Option Bool :=
  match snake with
  | [] => none
  | head :: rest =>
    if head.x < 0 ∨ head.x >= SCREEN_WIDTH ∨ head.y < 0 ∨ head.y >= SCREEN_HEIGHT then
      some true
    else if rest.any (fun s => head.x == s.x && head.y == s.y) then
      some true
    else if obstacles.any (fun obstacle => hitsRect head obstacle) then
      some true
    else
      some false

/-! ## Placement (lines 538-621) -/

/-- Lines 538-563. One round of the `while (!validPosition)` loop per unit of
fuel; each round draws two random values. Returns the food cell and the
number of `rand()` calls made so far. -/
def generateFood (rand : Nat → Nat) (fuel : Nat) (pos : Nat) (snake : List SnakeSegment)
    (obstacles : List SDL_Rect) (randomSnake : RandomSnake) : Option (Int × Int × Nat) :=
  match fuel with
  | 0 => none
  | fuel1 + 1 =>
    let foodX : Int := ((rand pos : Int) % (SCREEN_WIDTH / SNAKE_SIZE)) * SNAKE_SIZE
    let foodY : Int := ((rand (pos + 1) : Int) % (SCREEN_HEIGHT / SNAKE_SIZE)) * SNAKE_SIZE
    let onSnake := snake.any (fun segment => segment.x == foodX && segment.y == foodY)
    let onObstacle := obstacles.any (fun obstacle => obstacle.x == foodX && obstacle.y == foodY)
    let onRandomSnake :=
      randomSnake.segments.any (fun segment => segment.x == foodX && segment.y == foodY)
    if !onSnake && !onObstacle && !onRandomSnake then some (foodX, foodY, pos + 2)
    else generateFood rand fuel1 (pos + 2) snake obstacles randomSnake

/-- Lines 566-591. -/
def generateBanana (rand : Nat → Nat) (fuel : Nat) (pos : Nat) (snake : List SnakeSegment)
    (obstacles : List SDL_Rect) (randomSnake : RandomSnake) : Option (Int × Int × Nat) :=
  match fuel with
  | 0 => none
  | fuel1 + 1 =>
    let bananaX : Int := ((rand pos : Int) % (SCREEN_WIDTH / SNAKE_SIZE)) * SNAKE_SIZE
    let bananaY : Int := ((rand (pos + 1) : Int) % (SCREEN_HEIGHT / SNAKE_SIZE)) * SNAKE_SIZE
    let onSnake := snake.any (fun segment => segment.x == bananaX && segment.y == bananaY)
    let onObstacle :=
      obstacles.any (fun obstacle => obstacle.x == bananaX && obstacle.y == bananaY)
    let onRandomSnake :=
      randomSnake.segments.any (fun segment => segment.x == bananaX && segment.y == bananaY)
    if !onSnake && !onObstacle && !onRandomSnake then some (bananaX, bananaY, pos + 2)
    else generateBanana rand fuel1 (pos + 2) snake obstacles randomSnake

/-- Lines 598-619: the inner `while (!validPosition)` loop that places one
obstacle, given the obstacles placed so far. -/
def placeObstacle (rand : Nat → Nat) (fuel : Nat) (pos : Nat) (snake : List SnakeSegment)
    (obstacles : List SDL_Rect) : Option (SDL_Rect × Nat) :=
  match fuel with
  | 0 => none
  | fuel1 + 1 =>
    let newObstacle : SDL_Rect :=
      { x := ((rand pos : Int) % (SCREEN_WIDTH / OBSTACLE_SIZE)) * OBSTACLE_SIZE,
        y := ((rand (pos + 1) : Int) % (SCREEN_HEIGHT / OBSTACLE_SIZE)) * OBSTACLE_SIZE,
        w := OBSTACLE_SIZE,
        h := OBSTACLE_SIZE }
    let onSnake :=
      snake.any (fun segment => segment.x == newObstacle.x && segment.y == newObstacle.y)
    let onObstacle :=
      obstacles.any (fun obstacle => obstacle.x == newObstacle.x && obstacle.y == newObstacle.y)
    if !onSnake && !onObstacle then some (newObstacle, pos + 2)
    else placeObstacle rand fuel1 (pos + 2) snake obstacles

/-- The `for` loop of lines 597-620: `n` more obstacles are appended. -/
def placeObstacles (rand : Nat → Nat) (fuel : Nat) (n : Nat) (pos : Nat)
    (snake : List SnakeSegment) (obstacles : List SDL_Rect) : Option (List SDL_Rect × Nat) :=
  match n with
  | 0 => some (obstacles, pos)
  | n1 + 1 =>
    match placeObstacle rand fuel pos snake obstacles with
    | none => none
    | some (newObstacle, pos1) =>
      placeObstacles rand fuel n1 pos1 snake (obstacles ++ [newObstacle])

/-- Lines 594-621: the old list is cleared and `numObstacles = 3` obstacles
are placed. -/
def generateObstacles (rand : Nat → Nat) (fuel : Nat) (pos : Nat)
    (snake : List SnakeSegment) : Option (List SDL_Rect × Nat) :=
  placeObstacles rand fuel 3 pos snake []

/-! ## Events (lines 624-639) -/

/-- The key symbols `handleEvents` distinguishes; `OTHER` is any other key. -/
inductive Key where
  | SDLK_UP | SDLK_DOWN | SDLK_LEFT | SDLK_RIGHT | SDLK_p | SDLK_RETURN | OTHER
  deriving DecidableEq, Repr

/-- The event types `handleEvents` distinguishes; `OTHER` is any other event. -/
inductive Event where
  | SDL_QUIT
  | SDL_KEYDOWN (sym : Key)
  | OTHER
  deriving DecidableEq, Repr

/-- The three variables `handleEvents` writes. -/
structure Controls where
  direction : Direction
  quit : Bool
  state : GameState
  deriving DecidableEq, Repr

/-- The body of the `while (SDL_PollEvent(&e) != 0)` loop, lines 626-637. -/
def handleEvent (c : Controls) (e : Event) : Controls :=
  match e with
  | Event.SDL_QUIT => { c with quit := true }
  | Event.SDL_KEYDOWN sym =>
    match sym with
    | Key.SDLK_UP =>
      if c.direction ≠ Direction.DOWN then { c with direction := Direction.UP } else c
    | Key.SDLK_DOWN =>
      if c.direction ≠ Direction.UP then { c with direction := Direction.DOWN } else c
    | Key.SDLK_LEFT =>
      if c.direction ≠ Direction.RIGHT then { c with direction := Direction.LEFT } else c
    | Key.SDLK_RIGHT =>
      if c.direction ≠ Direction.LEFT then { c with direction := Direction.RIGHT } else c
    | Key.SDLK_p =>
      if c.state = GameState.PLAYING then { c with state := GameState.PAUSED }
      else if c.state = GameState.PAUSED then { c with state := GameState.PLAYING }
      else c
    | Key.SDLK_RETURN =>
      if c.state = GameState.MENU then { c with state := GameState.PLAYING } else c
    | Key.OTHER => c
  | Event.OTHER => c

/-- Lines 624-639: all pending events are drained, in order. -/
def handleEvents (events : List Event) (c : Controls) : Controls :=
  events.foldl handleEvent c

/-! ## The session: the local variables of `main` (lines 659-698) -/

structure Session where
  snake : List SnakeSegment
  direction : Direction
  grow : Bool
  foodX : Int
  foodY : Int
  bananaX : Int
  bananaY : Int
  bananaSpawnTime : Nat
  bananaActive : Bool
  obstacles : List SDL_Rect
  score : Int
  quit : Bool
  state : GameState
  snakeSpeed : Int
  levelUpStartTime : Nat
  pointsSinceLastBanana : Int
  levelUpTriggered : Bool
  currentLevel : String
  randomSnake : RandomSnake
  randomSnakeActive : Bool
  countdownStartTime : Nat
  countdownActive : Bool
  /-- The number of `rand()` calls made so far. -/
  randCalls : Nat
  deriving DecidableEq, Repr

def initialSnakeSpeed : Int := 130
def maxSnakeSpeed : Int := 50
def bananaLifetime : Nat := 5000
def countdownDuration : Nat := 3000

/-- What one iteration of the main loop reads from outside: the pending
events, and the value returned by `SDL_GetTicks()` at each of its call
sites. -/
structure LoopInput where
  events : List Event
  /-- Line 710. -/
  currentTime : Nat
  /-- Lines 723 and 728. -/
  levelUpStart : Nat
  /-- Line 757. -/
  bananaSpawn : Nat
  /-- Line 762. -/
  bananaCheck : Nat
  /-- Line 797. -/
  countdownBegin : Nat
  /-- Line 802. -/
  levelUpNow : Nat
  /-- Line 806. -/
  countdownRestart : Nat
  /-- Line 830. -/
  countdownNow : Nat
  deriving DecidableEq, Repr

/-- A `Uint32` clock reading. -/
def getTicks (t : Nat) : Nat := t % UINT32

/-- Conversion of an unsigned 64-bit value to `int` (32 bits, two's
complement). -/
def toInt32 (n : Nat) : Int :=
  if n % 4294967296 < 2147483648 then (n % 4294967296 : Nat)
  else ((n % 4294967296 : Nat) : Int) - 4294967296

/-- Line 752: `customMax(maxSnakeSpeed, initialSnakeSpeed - (snake.size() - 1) * 5)`,
the subtraction and product computed in `size_t` (64 bits). -/
def speedForSize (size : Nat) : Int :=
  let sizeMinus1 : Nat := (18446744073709551616 + size - 1) % 18446744073709551616
  let prod : Nat := (sizeMinus1 * 5) % 18446744073709551616
  let diff : Nat :=
    (18446744073709551616 + Int.toNat (initialSnakeSpeed % 18446744073709551616) - prod)
      % 18446744073709551616
  customMax maxSnakeSpeed (toInt32 diff)

/-! ## The `PLAYING` branch of the main loop (lines 708-769) -/

/-- Line 711. -/
def moveStep (s : Session) : Option Session :=
  match updateSnake s.snake s.direction s.grow with
  | none => none
  | some (snake1, grow1) => some { s with snake := snake1, grow := grow1 }

/-- Lines 720-732: the level-up test made after a food point. -/
def levelUpStep (rand : Nat → Nat) (fuel : Nat) (inp : LoopInput) (s : Session) :
    Option Session :=
  if !s.levelUpTriggered && decide (s.score >= 8) && s.currentLevel == "level 1" then
    some { s with state := GameState.LEVEL_UP,
                  levelUpStartTime := getTicks inp.levelUpStart,
                  levelUpTriggered := true,
                  currentLevel := "level 2" }
  else if !s.levelUpTriggered && decide (s.score >= 15) && s.currentLevel == "level 2" then
    match generateObstacles rand fuel s.randCalls s.snake with
    | none => none
    | some (obstacles1, pos1) =>
      some { s with state := GameState.LEVEL_UP,
                    levelUpStartTime := getTicks inp.levelUpStart,
                    obstacles := obstacles1,
                    randCalls := pos1,
                    levelUpTriggered := true,
                    currentLevel := "level 3" }
  else some s

/-- Lines 734-737. -/
def activateRandomSnake (s : Session) : Session :=
  if s.currentLevel == "level 2" then { s with randomSnakeActive := true } else s

/-- Lines 713-738. -/
def foodStep (rand : Nat → Nat) (fuel : Nat) (inp : LoopInput) (s : Session) :
    Option Session :=
  match s.snake with
  | [] => none
  | head :: _ =>
    if checkFoodCollision s.foodX s.foodY head then
      match generateFood rand fuel s.randCalls s.snake s.obstacles s.randomSnake with
      | none => none
      | some (foodX1, foodY1, pos1) =>
        (levelUpStep rand fuel inp
          { s with grow := true,
                   score := s.score + 1,
                   pointsSinceLastBanana := s.pointsSinceLastBanana + 1,
                   foodX := foodX1,
                   foodY := foodY1,
                   randCalls := pos1 }).map activateRandomSnake
    else some s

/-- Lines 740-745. -/
def bananaEatStep (s : Session) : Option Session :=
  match s.snake with
  | [] => none
  | head :: _ =>
    if s.bananaActive && checkBananaCollision s.bananaX s.bananaY head then
      some { s with grow := true,
                    score := s.score + 3,
                    bananaActive := false,
                    pointsSinceLastBanana := 0 }
    else some s

/-- Lines 747-749; the right operand of `||` is evaluated only when the left
one is false, and that of `&&` only when the left one is true. -/
def collisionStep (s : Session) : Option Session :=
  match checkCollision s.snake s.obstacles with
  | none => none
  | some true => some { s with state := GameState.GAME_OVER }
  | some false =>
    if s.randomSnakeActive then
      match checkRandomSnakeCollision s.snake s.randomSnake with
      | none => none
      | some true => some { s with state := GameState.GAME_OVER }
      | some false => some s
    else some s

/-- Line 752. -/
def speedStep (s : Session) : Session :=
  { s with snakeSpeed := speedForSize s.snake.length }

/-- Lines 755-759. -/
def bananaSpawnStep (rand : Nat → Nat) (fuel : Nat) (inp : LoopInput) (s : Session) :
    Option Session :=
  if decide (s.score >= 5) && decide (s.pointsSinceLastBanana >= 3) && !s.bananaActive then
    match generateBanana rand fuel s.randCalls s.snake s.obstacles s.randomSnake with
    | none => none
    | some (bananaX1, bananaY1, pos1) =>
      some { s with bananaX := bananaX1,
                    bananaY := bananaY1,
                    randCalls := pos1,
                    bananaSpawnTime := getTicks inp.bananaSpawn,
                    bananaActive := true }
  else some s

/-- Lines 762-764. -/
def bananaExpireStep (inp : LoopInput) (s : Session) : Session :=
  if s.bananaActive && decide (u32sub (getTicks inp.bananaCheck) s.bananaSpawnTime >= bananaLifetime)
  then { s with bananaActive := false }
  else s

/-- Lines 767-769. -/
def randomSnakeStep (rand : Nat → Nat) (inp : LoopInput) (s : Session) : Option Session :=
  if s.randomSnakeActive then
    match updateRandomSnake rand s.randCalls s.randomSnake s.obstacles
        (getTicks inp.currentTime) with
    | none => none
    | some (randomSnake1, pos1) => some { s with randomSnake := randomSnake1, randCalls := pos1 }
  else some s

/-- Lines 708-769: the game logic of one iteration in state `PLAYING`. -/
def playingTick (rand : Nat → Nat) (fuel : Nat) (inp : LoopInput) (s : Session) :
    Option Session :=
  (moveStep s).bind fun s1 =>
  (foodStep rand fuel inp s1).bind fun s2 =>
  (bananaEatStep s2).bind fun s3 =>
  (collisionStep s3).bind fun s4 =>
  (bananaSpawnStep rand fuel inp (speedStep s4)).bind fun s5 =>
  randomSnakeStep rand inp (bananaExpireStep inp s5)

/-! ## The other branches and the loop (lines 705-864) -/

/-- Lines 795-807. -/
def levelUpTick (inp : LoopInput) (s : Session) : Session :=
  let s1 :=
    if !s.countdownActive then
      { s with countdownStartTime := getTicks inp.countdownBegin, countdownActive := true }
    else s
  if s1.countdownActive &&
      decide (u32sub (getTicks inp.levelUpNow) s1.countdownStartTime >= 3000) then
    { s1 with countdownActive := false,
              state := GameState.COUNTDOWN,
              countdownStartTime := getTicks inp.countdownRestart }
  else s1

/-- Lines 829-834. -/
def countdownTick (inp : LoopInput) (s : Session) : Session :=
  if u32sub (getTicks inp.countdownNow) s.countdownStartTime >= countdownDuration then
    { s with state := GameState.PLAYING, levelUpTriggered := false }
  else s

/-- Line 706: `handleEvents` applied to the session's variables. -/
def applyEvents (events : List Event) (s : Session) : Session :=
  let c := handleEvents events { direction := s.direction, quit := s.quit, state := s.state }
  { s with direction := c.direction, quit := c.quit, state := c.state }

/-- Lines 706-863: the body of `while (!quit)`. Rendering and `SDL_Delay`
change no game variable. -/
def loopBody (rand : Nat → Nat) (fuel : Nat) (inp : LoopInput) (s : Session) :
    Option Session :=
  let s0 := applyEvents inp.events s
  match s0.state with
  | GameState.PLAYING => playingTick rand fuel inp s0
  | GameState.LEVEL_UP => some (levelUpTick inp s0)
  | GameState.COUNTDOWN => some (countdownTick inp s0)
  | GameState.GAME_OVER => some s0
  | GameState.PAUSED => some s0
  | GameState.MENU => some s0

/-- Lines 705-864: the loop run on a list of inputs, one per iteration; it
stops early when `quit` is set. -/
def mainLoop (rand : Nat → Nat) (fuel : Nat) (inputs : List LoopInput) (s : Session) :
    Option Session :=
  match inputs with
  | [] => some s
  | inp :: rest =>
    if s.quit then some s
    else
      match loopBody rand fuel inp s with
      | none => none
      | some s1 => mainLoop rand fuel rest s1

/-- Lines 659-702: the session before the first iteration. `startTime` is the
clock reading of line 690; `bananaX0` and `bananaY0` stand for the
uninitialised values of `bananaX` and `bananaY`. -/
def initSession (rand : Nat → Nat) (fuel : Nat) (startTime : Nat) (bananaX0 bananaY0 : Int) :
    Option Session :=
  let snake : List SnakeSegment := [{ x := SCREEN_WIDTH / 2, y := SCREEN_HEIGHT / 2 }]
  let startX : Int := ((rand 0 : Int) % (SCREEN_WIDTH / SNAKE_SIZE)) * SNAKE_SIZE
  let startY : Int := ((rand 1 : Int) % (SCREEN_HEIGHT / SNAKE_SIZE)) * SNAKE_SIZE
  let randomSnake : RandomSnake :=
    { segments := (List.range 3).map (fun i => { x := startX + (i : Int) * SNAKE_SIZE, y := startY }),
      direction := directionOfNat (rand 2 % 4),
      lastMoveTime := getTicks startTime,
      moveInterval := 500 }
  match generateFood rand fuel 3 snake [] randomSnake with
  | none => none
  | some (foodX, foodY, pos) =>
    some { snake := snake,
           direction := Direction.RIGHT,
           grow := false,
           foodX := foodX,
           foodY := foodY,
           bananaX := bananaX0,
           bananaY := bananaY0,
           bananaSpawnTime := 0,
           bananaActive := false,
           obstacles := [],
           score := 0,
           quit := false,
           state := GameState.MENU,
           snakeSpeed := initialSnakeSpeed,
           levelUpStartTime := 0,
           pointsSinceLastBanana := 0,
           levelUpTriggered := false,
           currentLevel := "level 1",
           randomSnake := randomSnake,
           randomSnakeActive := false,
           countdownStartTime := 0,
           countdownActive := false,
           randCalls := pos }

/-! ## Specification-side vocabulary -/

/-- The reverse of a heading: Up/Down and Left/Right are the two pairs. -/
def reverseOf (d : Direction) : Direction :=
  match d with
  | Direction.UP => Direction.DOWN
  | Direction.DOWN => Direction.UP
  | Direction.LEFT => Direction.RIGHT
  | Direction.RIGHT => Direction.LEFT

/-- The arrow key that asks for a heading. -/
def arrowKey (d : Direction) : Key :=
  match d with
  | Direction.UP => Key.SDLK_UP
  | Direction.DOWN => Key.SDLK_DOWN
  | Direction.LEFT => Key.SDLK_LEFT
  | Direction.RIGHT => Key.SDLK_RIGHT

/-- The cell one step (25 pixels) away from `c` in direction `d`, written out
coordinate by coordinate. -/
def neighbour (c : SnakeSegment) (d : Direction) : SnakeSegment :=
  match d with
  | Direction.UP => { x := c.x, y := c.y - 25 }
  | Direction.DOWN => { x := c.x, y := c.y + 25 }
  | Direction.LEFT => { x := c.x - 25, y := c.y }
  | Direction.RIGHT => { x := c.x + 25, y := c.y }

/-! ## Concrete sessions and inputs used in the evaluations below -/

/-- The random stream that returns the listed values, then zeros. -/
def randOf (values : List Nat) : Nat → Nat := fun k => values.getD k 0

/-- A session in state `PLAYING`: a one-cell snake at the centre heading
right, the food in the top left corner, level 1, the random snake idle. -/
def playingSession : Session :=
  { snake := [{ x := 400, y := 300 }],
    direction := Direction.RIGHT,
    grow := false,
    foodX := 0,
    foodY := 0,
    bananaX := 0,
    bananaY := 0,
    bananaSpawnTime := 0,
    bananaActive := false,
    obstacles := [],
    score := 0,
    quit := false,
    state := GameState.PLAYING,
    snakeSpeed := 130,
    levelUpStartTime := 0,
    pointsSinceLastBanana := 0,
    levelUpTriggered := false,
    currentLevel := "level 1",
    randomSnake :=
      { segments := [{ x := 100, y := 500 }, { x := 125, y := 500 }, { x := 150, y := 500 }],
        direction := Direction.UP,
        lastMoveTime := 0,
        moveInterval := 500 },
    randomSnakeActive := false,
    countdownStartTime := 0,
    countdownActive := false,
    randCalls := 0 }

/-- An iteration with no pending event and the clock at 0. -/
def quietInput : LoopInput :=
  { events := [], currentTime := 0, levelUpStart := 0, bananaSpawn := 0, bananaCheck := 0,
    countdownBegin := 0, levelUpNow := 0, countdownRestart := 0, countdownNow := 0 }

/-- A three-cell snake that has been moving right, after two food points. -/
def uTurnSession : Session :=
  { playingSession with
      snake := [{ x := 400, y := 300 }, { x := 375, y := 300 }, { x := 350, y := 300 }],
      score := 2,
      pointsSinceLastBanana := 2 }

/-- Up and Left pressed between two moves. -/
def uTurnInput : LoopInput :=
  { quietInput with
      events := [Event.SDL_KEYDOWN Key.SDLK_UP, Event.SDL_KEYDOWN Key.SDLK_LEFT] }

/-- One 50x50 stone whose top left corner is the cell (50,50). -/
def oneStone : List SDL_Rect := [{ x := 50, y := 50, w := 50, h := 50 }]

/-- Level 1, score 5, a banana on the cell right ahead of the head. -/
def bananaAheadSession : Session :=
  { playingSession with
      snake := [{ x := 400, y := 300 }, { x := 375, y := 300 }, { x := 350, y := 300 },
                { x := 325, y := 300 }, { x := 300, y := 300 }, { x := 275, y := 300 }],
      score := 5,
      pointsSinceLastBanana := 5,
      bananaActive := true,
      bananaX := 425,
      bananaY := 300 }

/-- Level 1, score 7, the food on the cell right ahead of the head. -/
def foodAheadSession : Session :=
  { playingSession with
      snake := [{ x := 400, y := 300 }, { x := 375, y := 300 }, { x := 350, y := 300 },
                { x := 325, y := 300 }, { x := 300, y := 300 }, { x := 275, y := 300 },
                { x := 250, y := 300 }, { x := 225, y := 300 }],
      score := 7,
      pointsSinceLastBanana := 7,
      bananaActive := true,
      bananaX := 600,
      bananaY := 100,
      foodX := 425,
      foodY := 300 }

/-- The session after one playing tick from `foodAheadSession` with the
random values 3 and 4. -/
def foodAheadResult : Session :=
  { foodAheadSession with
      snake := { x := 425, y := 300 } :: foodAheadSession.snake.dropLast,
      grow := true,
      score := 8,
      pointsSinceLastBanana := 8,
      foodX := 75,
      foodY := 100,
      randCalls := 2,
      state := GameState.LEVEL_UP,
      levelUpTriggered := true,
      currentLevel := "level 2",
      randomSnakeActive := true,
      snakeSpeed := 95 }

/-- An iteration with the given events in which every clock reading is `t`. -/
def tickAt (events : List Event) (t : Nat) : LoopInput :=
  { events := events, currentTime := t, levelUpStart := t, bananaSpawn := t, bananaCheck := t,
    countdownBegin := t, levelUpNow := t, countdownRestart := t, countdownNow := t }

/-- The random values of a sample game: the random snake starts at (100,500)
heading up, every new food appears right ahead of the player snake, bananas
appear at (0,0), the stones of level 3 at (100,400), (200,400), (300,400). -/
def demoRand : Nat → Nat :=
  randOf
    [4, 20, 0, 17, 12,
     18, 12, 19, 12, 20, 12, 21, 12,
     22, 12, 0, 0,
     23, 12, 24, 12,
     25, 12, 1,
     26, 12, 1,
     27, 12, 0, 0,
     28, 12, 29, 12, 30, 12, 31, 12,
     10, 2, 2, 8, 4, 8, 6, 8, 1]

/-- Enter, then six more iterations: seven food points at level 1. -/
def demoPre : List LoopInput :=
  [tickAt [Event.SDL_KEYDOWN Key.SDLK_RETURN] 100, tickAt [] 230, tickAt [] 360, tickAt [] 490,
   tickAt [] 620, tickAt [] 750, tickAt [] 880]

/-- The level-up message, the countdown, then six food points at level 2. -/
def demoMid : List LoopInput :=
  [tickAt [] 1100, tickAt [] 4100, tickAt [] 7100, tickAt [] 7200, tickAt [] 7300,
   tickAt [] 7400, tickAt [] 7500, tickAt [] 7600, tickAt [] 7700]

/-- The sample game: the initial session. -/
def demo0 : Session := (initSession demoRand 1 0 0 0).getD playingSession

/-- The sample game after `demoPre`: score 7, level 1. -/
def demo7 : Session := (mainLoop demoRand 1 demoPre demo0).getD playingSession

/-- The sample game one iteration later: score 8, level 2. -/
def demo8 : Session := (loopBody demoRand 1 (tickAt [] 1010) demo7).getD playingSession

/-- The sample game after `demoMid`: score 14, level 2. -/
def demo14 : Session := (mainLoop demoRand 1 demoMid demo8).getD playingSession

/-- The sample game one iteration later: score 15, level 3. -/
def demo15 : Session := (loopBody demoRand 1 (tickAt [] 7800) demo14).getD playingSession

/-- A session in state `GAME_OVER`. -/
def gameOverSession : Session :=
  { uTurnSession with
      snake := [{ x := 375, y := 300 }, { x := 400, y := 300 }, { x := 375, y := 300 }],
      direction := Direction.LEFT,
      state := GameState.GAME_OVER }

/-- Two iterations in which P, Enter and arrow keys are pressed. -/
def gameOverInputs : List LoopInput :=
  [tickAt [Event.SDL_KEYDOWN Key.SDLK_p, Event.SDL_KEYDOWN Key.SDLK_RETURN,
           Event.SDL_KEYDOWN Key.SDLK_UP] 100,
   tickAt [Event.SDL_KEYDOWN Key.SDLK_RIGHT, Event.SDL_KEYDOWN Key.SDLK_p] 230]

/-- Level 1, score 5, all five points earned from food; the banana that
appeared at time 1000 lies at (600,100), away from the snake's path. -/
def bananaWaitingSession : Session :=
  { playingSession with
      snake := [{ x := 400, y := 300 }, { x := 375, y := 300 }, { x := 350, y := 300 },
                { x := 325, y := 300 }, { x := 300, y := 300 }, { x := 275, y := 300 }],
      score := 5,
      pointsSinceLastBanana := 5,
      bananaActive := true,
      bananaX := 600,
      bananaY := 100,
      bananaSpawnTime := 1000 }

/-- A cell of the board: both coordinates multiples of 25, inside
`[0,800) x [0,600)`. -/
def onBoard (c : SnakeSegment) : Prop :=
  c.x % 25 = 0 ∧ c.y % 25 = 0 ∧ 0 ≤ c.x ∧ c.x < 800 ∧ 0 ≤ c.y ∧ c.y < 600

instance (c : SnakeSegment) : Decidable (onBoard c) := by
  unfold onBoard
  infer_instance

/-- A stone of the coarse grid: a 50x50 rectangle whose corner has
coordinates multiples of 50, inside `[0,800) x [0,600)`. -/
def isStone (o : SDL_Rect) : Prop :=
  o.w = 50 ∧ o.h = 50 ∧ o.x % 50 = 0 ∧ 0 ≤ o.x ∧ o.x < 800 ∧ o.y % 50 = 0 ∧ 0 ≤ o.y ∧ o.y < 600

instance (o : SDL_Rect) : Decidable (isStone o) := by
  unfold isStone
  infer_instance

/-- The 25x25 square at `c` and the rectangle `o` overlap. -/
def overlaps (c : SnakeSegment) (o : SDL_Rect) : Prop :=
  c.x < o.x + o.w ∧ o.x < c.x + 25 ∧ c.y < o.y + o.h ∧ o.y < c.y + 25

instance (c : SnakeSegment) (o : SDL_Rect) : Decidable (overlaps c o) := by
  unfold overlaps
  infer_instance

/-- A random snake whose head is on the left edge, heading left. -/
def hazardAtEdge : RandomSnake :=
  { segments := [{ x := 0, y := 100 }, { x := 25, y := 100 }, { x := 50, y := 100 }],
    direction := Direction.LEFT,
    lastMoveTime := 0,
    moveInterval := 500 }

/-- A random snake heading left whose next cell (75,50) lies in `oneStone`. -/
def hazardAtStone : RandomSnake :=
  { segments := [{ x := 100, y := 50 }, { x := 125, y := 50 }, { x := 150, y := 50 }],
    direction := Direction.LEFT,
    lastMoveTime := 0,
    moveInterval := 500 }

/-- Level 1, score 5; the banana that appeared at time 1000 lies on the cell
right ahead of the head. -/
def bananaLateSession : Session :=
  { bananaAheadSession with bananaSpawnTime := 1000 }

/-- The session after the playing tick at time 7000 from `bananaLateSession`. -/
def bananaLateResult : Session :=
  (playingTick (randOf []) 1 (tickAt [] 7000) bananaLateSession).getD playingSession

/-- Level 2, score 14: a 15-cell snake heading up along `x = 425` with the
food on the cell right ahead of the head, (425,300). -/
def beforeLevelThree : Session :=
  { playingSession with
      snake := [{ x := 425, y := 325 }, { x := 425, y := 350 }, { x := 425, y := 375 },
                { x := 425, y := 400 }, { x := 425, y := 425 }, { x := 425, y := 450 },
                { x := 425, y := 475 }, { x := 425, y := 500 }, { x := 425, y := 525 },
                { x := 425, y := 550 }, { x := 425, y := 575 }, { x := 400, y := 575 },
                { x := 375, y := 575 }, { x := 350, y := 575 }, { x := 325, y := 575 }],
      direction := Direction.UP,
      foodX := 425,
      foodY := 300,
      score := 14,
      pointsSinceLastBanana := 14,
      bananaActive := true,
      bananaX := 600,
      bananaY := 100,
      currentLevel := "level 2",
      randomSnakeActive := true,
      snakeSpeed := 60 }

/-- The snake invariant of the data model: non-empty, pairwise distinct
cells, every cell a cell of the board. -/
def goodSnake (snake : List SnakeSegment) : Prop :=
  snake ≠ [] ∧ snake.Nodup ∧ ∀ c ∈ snake, onBoard c

/-! ## Movement and collision -/

theorem shiftHead_eq_neighbour (c : SnakeSegment) (d : Direction) :
    shiftHead c d = neighbour c d := by
  cases d <;> simp [shiftHead, neighbour, SNAKE_SIZE]

theorem updateSnake_cons (front : SnakeSegment) (rest : List SnakeSegment) (d : Direction)
    (g : Bool) :
    updateSnake (front :: rest) d g =
      some (neighbour front d ::
              (if g then front :: rest else (front :: rest).dropLast), false) := by
  cases g
  · simp [updateSnake, shiftHead_eq_neighbour, List.dropLast]
  · simp [updateSnake, shiftHead_eq_neighbour]


/-- C1: for a non-empty snake `front :: rest`, `updateSnake` returns the old
head moved by 25 in direction `d`, followed by all old cells when `g` is true
and by all old cells but the last when `g` is false; the length grows by one
exactly when `g` is true; the grow flag is false afterwards. The snake
`[(400,300)]` heading right without growth becomes `[(425,300)]`. -/
theorem updateSnake_spec (front : SnakeSegment) (rest : List SnakeSegment) (d : Direction)
    (g : Bool) :
    updateSnake (front :: rest) d g =
        some (neighbour front d ::
                (if g then front :: rest else (front :: rest).dropLast), false) ∧
    (updateSnake (front :: rest) d g).map (fun r => (r.1.length, r.2)) =
        some ((front :: rest).length + (if g then 1 else 0), false) ∧
    updateSnake [{ x := 400, y := 300 }] Direction.RIGHT false
        = some ([{ x := 425, y := 300 }], false) := by
  refine ⟨updateSnake_cons front rest d g, ?_, by decide⟩
  rw [updateSnake_cons]
  cases g <;> simp [List.length_dropLast]

/-- C2: for a non-empty snake `head :: rest`, `checkCollision` returns a
value, and that value is true exactly when the head is outside
`[0,800) x [0,600)`, or equals a snake cell at some index at least 1, or its
25x25 square intersects an obstacle rectangle. Heads at `x = -1`, `x = 800`,
`y = -1` and `y = 600` are reported as collisions. -/
theorem checkCollision_spec (head : SnakeSegment) (rest : List SnakeSegment)
    (obstacles : List SDL_Rect) :
    (∃ b, checkCollision (head :: rest) obstacles = some b ∧
      (b = true ↔
        ((head.x < 0 ∨ 800 ≤ head.x ∨ head.y < 0 ∨ 600 ≤ head.y) ∨
         (∃ i, 1 ≤ i ∧ (head :: rest)[i]? = some head) ∨
         (∃ o ∈ obstacles, head.x < o.x + o.w ∧ o.x < head.x + 25 ∧
                            head.y < o.y + o.h ∧ o.y < head.y + 25)))) ∧
    (∀ v, checkCollision ({ x := -1, y := v } :: rest) obstacles = some true ∧
          checkCollision ({ x := 800, y := v } :: rest) obstacles = some true ∧
          checkCollision ({ x := v, y := -1 } :: rest) obstacles = some true ∧
          checkCollision ({ x := v, y := 600 } :: rest) obstacles = some true) := by
  constructor
  · have hself : (∃ i, 1 ≤ i ∧ (head :: rest)[i]? = some head) ↔ head ∈ rest := by
      constructor
      · rintro ⟨i, hi, h⟩
        obtain ⟨j, rfl⟩ : ∃ j, i = j + 1 := ⟨i - 1, by omega⟩
        rw [List.getElem?_cons_succ] at h
        exact List.getElem?_mem h
      · intro h
        obtain ⟨j, hj⟩ := List.mem_iff_getElem?.mp h
        exact ⟨j + 1, by omega, by rw [List.getElem?_cons_succ]; exact hj⟩
    have hany : rest.any (fun s => head.x == s.x && head.y == s.y) = true ↔ head ∈ rest := by
      simp only [List.any_eq_true, Bool.and_eq_true, beq_iff_eq]
      constructor
      · rintro ⟨s, hs, hx, hy⟩
        have : head = s := by cases head; cases s; simp_all
        exact this ▸ hs
      · intro h
        exact ⟨head, h, rfl, rfl⟩
    have hobs : obstacles.any (fun obstacle => hitsRect head obstacle) = true ↔
        ∃ o ∈ obstacles, head.x < o.x + o.w ∧ o.x < head.x + 25 ∧
                          head.y < o.y + o.h ∧ o.y < head.y + 25 := by
      simp only [List.any_eq_true, hitsRect, Bool.and_eq_true, decide_eq_true_eq, SNAKE_SIZE,
        gt_iff_lt, and_assoc]
    rw [hself, ← hany, ← hobs]
    unfold checkCollision
    simp only [SCREEN_WIDTH, SCREEN_HEIGHT, ge_iff_le]
    by_cases h1 : head.x < 0 ∨ 800 ≤ head.x ∨ head.y < 0 ∨ 600 ≤ head.y
    · exact ⟨true, by simp [h1], by simp [h1]⟩
    · by_cases h2 : rest.any (fun s => head.x == s.x && head.y == s.y) = true
      · exact ⟨true, by simp [h1, h2], by simp [h2]⟩
      · by_cases h3 : obstacles.any (fun obstacle => hitsRect head obstacle) = true
        · exact ⟨true, by simp [h1, h2, h3], by simp [h3]⟩
        · exact ⟨false, by simp [h1, h2, h3], by simp [h1, h2, h3]⟩
  · intro v
    simp [checkCollision, SCREEN_WIDTH, SCREEN_HEIGHT]

/-! ## Events -/

/-- C3: a single arrow-key event asking for heading `k`, processed by
`handleEvents` while the heading is `d`, leaves the heading `d` when `k` is
the reverse of `d` and makes it `k` otherwise. -/
theorem handleEvents_arrow (d k : Direction) (q : Bool) (st : GameState) :
    (handleEvents [Event.SDL_KEYDOWN (arrowKey k)]
        { direction := d, quit := q, state := st }).direction
      = if k = reverseOf d then d else k := by
  cases d <;> cases k <;> simp [handleEvents, handleEvent, arrowKey, reverseOf]

/-- C4 (evaluation at the failing input): the three-cell snake
`[(400,300),(375,300),(350,300)]` last moved right. Up and then Left arrive
before the next move: each key passes the reversal guard, the heading used by
the next `updateSnake` is Left, the reverse of Right, the new head is the
cell at index 1 of the old snake, and the iteration ends in `GAME_OVER`. -/
theorem uTurn_two_keys_reverses :
    (applyEvents uTurnInput.events uTurnSession).direction = reverseOf uTurnSession.direction ∧
    (updateSnake uTurnSession.snake Direction.LEFT uTurnSession.grow).map
        (fun r => r.1.head?) = some uTurnSession.snake[1]? ∧
    (loopBody (randOf []) 1 uTurnInput uTurnSession).map (fun t => (t.snake, t.state)) =
      some ([{ x := 375, y := 300 }, { x := 400, y := 300 }, { x := 375, y := 300 }],
            GameState.GAME_OVER) := by
  decide

/-! ## Placement -/

theorem any_cell_eq_false {cells : List SnakeSegment} {fx fy : Int}
    (h : cells.any (fun segment => segment.x == fx && segment.y == fy) = false) :
    ∀ c ∈ cells, ¬ (c.x = fx ∧ c.y = fy) := by
  intro c hc hxy
  have : cells.any (fun segment => segment.x == fx && segment.y == fy) = true := by
    simp only [List.any_eq_true, Bool.and_eq_true, beq_iff_eq]
    exact ⟨c, hc, hxy⟩
  simp [h] at this

theorem cell_coord_bounds (r : Nat) :
    (((r : Int) % (SCREEN_WIDTH / SNAKE_SIZE)) * SNAKE_SIZE) % 25 = 0 ∧
    0 ≤ ((r : Int) % (SCREEN_WIDTH / SNAKE_SIZE)) * SNAKE_SIZE ∧
    ((r : Int) % (SCREEN_WIDTH / SNAKE_SIZE)) * SNAKE_SIZE < 800 ∧
    (((r : Int) % (SCREEN_HEIGHT / SNAKE_SIZE)) * SNAKE_SIZE) % 25 = 0 ∧
    0 ≤ ((r : Int) % (SCREEN_HEIGHT / SNAKE_SIZE)) * SNAKE_SIZE ∧
    ((r : Int) % (SCREEN_HEIGHT / SNAKE_SIZE)) * SNAKE_SIZE < 600 := by
  simp only [SCREEN_WIDTH, SCREEN_HEIGHT, SNAKE_SIZE]
  omega

/-- C5: whenever `generateFood` returns a cell `(foodX, foodY)`, both
coordinates are multiples of 25, `0 <= foodX < 800`, `0 <= foodY < 600`, no
cell of the player snake equals it and no segment of the random snake equals
it; `rand` is an arbitrary stream of naturals. -/
theorem generateFood_spec (rand : Nat → Nat) (fuel pos : Nat) (snake : List SnakeSegment)
    (obstacles : List SDL_Rect) (randomSnake : RandomSnake) (foodX foodY : Int) (pos1 : Nat)
    (h : generateFood rand fuel pos snake obstacles randomSnake = some (foodX, foodY, pos1)) :
    foodX % 25 = 0 ∧ foodY % 25 = 0 ∧ 0 ≤ foodX ∧ foodX < 800 ∧ 0 ≤ foodY ∧ foodY < 600 ∧
    (∀ c ∈ snake, ¬ (c.x = foodX ∧ c.y = foodY)) ∧
    (∀ c ∈ randomSnake.segments, ¬ (c.x = foodX ∧ c.y = foodY)) := by
  induction fuel generalizing pos with
  | zero => simp [generateFood] at h
  | succ n ih =>
    unfold generateFood at h
    simp only at h
    split at h
    · rename_i hvalid
      simp only [Option.some.injEq, Prod.mk.injEq] at h
      obtain ⟨hx, hy, -⟩ := h
      simp only [Bool.and_eq_true, Bool.not_eq_true'] at hvalid
      obtain ⟨⟨hs, -⟩, hr⟩ := hvalid
      have hb1 := cell_coord_bounds (rand pos)
      have hb2 := cell_coord_bounds (rand (pos + 1))
      rw [hx] at hs hr hb1
      rw [hy] at hs hr hb2
      exact ⟨hb1.1, hb2.2.2.2.1, hb1.2.1, hb1.2.2.1, hb2.2.2.2.2.1, hb2.2.2.2.2.2,
        any_cell_eq_false hs, any_cell_eq_false hr⟩
    · exact ih _ h

/-- The witness of C5: the stream 16, 12, 3, 4 first proposes the snake's
own cell (400,300), which is rejected, then (75,100), which is returned. -/
theorem generateFood_spec_witness :
    generateFood (randOf [16, 12, 3, 4]) 2 0 playingSession.snake []
        playingSession.randomSnake = some (75, 100, 4) ∧
    ((75 : Int) % 25 = 0 ∧ (100 : Int) % 25 = 0 ∧ (0 : Int) ≤ 75 ∧ (75 : Int) < 800 ∧
      (0 : Int) ≤ 100 ∧ (100 : Int) < 600 ∧
      (∀ c ∈ playingSession.snake, ¬ (c.x = 75 ∧ c.y = 100)) ∧
      (∀ c ∈ playingSession.randomSnake.segments, ¬ (c.x = 75 ∧ c.y = 100))) :=
  ⟨by decide,
   generateFood_spec (randOf [16, 12, 3, 4]) 2 0 playingSession.snake []
     playingSession.randomSnake 75 100 4 (by decide)⟩

/-- C6 (evaluation at the failing input): with one 50x50 stone at (50,50)
and the random values 3 and 2, `generateFood` returns the cell (75,50) and
`generateBanana` does the same, although the 25x25 square of that cell
intersects the stone: a snake head on it is a collision for
`checkCollision`. -/
theorem generateFood_inside_stone :
    generateFood (randOf [3, 2]) 1 0 playingSession.snake oneStone
        playingSession.randomSnake = some (75, 50, 2) ∧
    generateBanana (randOf [3, 2]) 1 0 playingSession.snake oneStone
        playingSession.randomSnake = some (75, 50, 2) ∧
    oneStone.any (fun o => hitsRect { x := 75, y := 50 } o) = true ∧
    checkCollision [{ x := 75, y := 50 }] oneStone = some true := by
  decide

/-! ## The playing tick -/

theorem moveStep_eq {s s' : Session} (h : moveStep s = some s') :
    ∃ snake1 g1, updateSnake s.snake s.direction s.grow = some (snake1, g1) ∧
      s' = { s with snake := snake1, grow := g1 } := by
  unfold moveStep at h
  split at h
  · simp at h
  · rename_i snake1 g1 heq
    simp only [Option.some.injEq] at h
    exact ⟨snake1, g1, heq, h.symm⟩

theorem bananaEatStep_frame {s s' : Session} (h : bananaEatStep s = some s') :
    s'.state = s.state ∧ s'.currentLevel = s.currentLevel ∧
    s'.levelUpTriggered = s.levelUpTriggered ∧ s'.snake = s.snake := by
  unfold bananaEatStep at h
  split at h
  · simp at h
  · split at h <;> simp only [Option.some.injEq] at h <;> subst h <;> simp

theorem collisionStep_frame {s s' : Session} (h : collisionStep s = some s') :
    (s'.state = s.state ∨ s'.state = GameState.GAME_OVER) ∧
    s'.currentLevel = s.currentLevel ∧ s'.score = s.score ∧ s'.snake = s.snake := by
  unfold collisionStep at h
  split at h
  · simp at h
  · simp only [Option.some.injEq] at h; subst h; simp
  · split at h
    · split at h
      · simp at h
      · simp only [Option.some.injEq] at h; subst h; simp
      · simp only [Option.some.injEq] at h; subst h; simp
    · simp only [Option.some.injEq] at h; subst h; simp

theorem bananaSpawnStep_frame {rand : Nat → Nat} {fuel : Nat} {inp : LoopInput}
    {s s' : Session} (h : bananaSpawnStep rand fuel inp s = some s') :
    s'.state = s.state ∧ s'.currentLevel = s.currentLevel ∧ s'.score = s.score ∧
    s'.snake = s.snake := by
  unfold bananaSpawnStep at h
  split at h
  · split at h
    · simp at h
    · simp only [Option.some.injEq] at h; subst h; simp
  · simp only [Option.some.injEq] at h; subst h; simp

theorem bananaExpireStep_frame (inp : LoopInput) (s : Session) :
    (bananaExpireStep inp s).state = s.state ∧
    (bananaExpireStep inp s).currentLevel = s.currentLevel ∧
    (bananaExpireStep inp s).score = s.score ∧
    (bananaExpireStep inp s).snake = s.snake := by
  unfold bananaExpireStep
  split <;> simp

theorem randomSnakeStep_frame {rand : Nat → Nat} {inp : LoopInput}
    {s s' : Session} (h : randomSnakeStep rand inp s = some s') :
    s'.state = s.state ∧ s'.currentLevel = s.currentLevel ∧ s'.score = s.score ∧
    s'.snake = s.snake := by
  unfold randomSnakeStep at h
  split at h
  · split at h
    · simp at h
    · simp only [Option.some.injEq] at h; subst h; simp
  · simp only [Option.some.injEq] at h; subst h; simp

/-- The phases of a playing tick, made explicit. -/
theorem playingTick_phases {rand : Nat → Nat} {fuel : Nat} {inp : LoopInput}
    {s s' : Session} (h : playingTick rand fuel inp s = some s') :
    ∃ s1 s2 s3 s4 s5, moveStep s = some s1 ∧ foodStep rand fuel inp s1 = some s2 ∧
      bananaEatStep s2 = some s3 ∧ collisionStep s3 = some s4 ∧
      bananaSpawnStep rand fuel inp (speedStep s4) = some s5 ∧
      randomSnakeStep rand inp (bananaExpireStep inp s5) = some s' := by
  unfold playingTick at h
  simp only [Option.bind_eq_some] at h
  obtain ⟨s1, h1, s2, h2, s3, h3, s4, h4, s5, h5, h6⟩ := h
  exact ⟨s1, s2, s3, s4, s5, h1, h2, h3, h4, h5, h6⟩

/-- After the food phase, the state can only stay or become `GAME_OVER`, and
the level stays. -/
theorem playingTick_after_food {rand : Nat → Nat} {fuel : Nat} {inp : LoopInput}
    {s2 s3 s4 s5 s' : Session}
    (h3 : bananaEatStep s2 = some s3) (h4 : collisionStep s3 = some s4)
    (h5 : bananaSpawnStep rand fuel inp (speedStep s4) = some s5)
    (h6 : randomSnakeStep rand inp (bananaExpireStep inp s5) = some s') :
    (s'.state = s2.state ∨ s'.state = GameState.GAME_OVER) ∧
    s'.currentLevel = s2.currentLevel := by
  have f3 := bananaEatStep_frame h3
  have f4 := collisionStep_frame h4
  have f5 := bananaSpawnStep_frame h5
  have f6 := randomSnakeStep_frame h6
  have f7 := bananaExpireStep_frame inp s5
  have e1 : s'.state = s4.state := by
    rw [f6.1, f7.1, f5.1]; simp [speedStep]
  have e2 : s'.currentLevel = s4.currentLevel := by
    rw [f6.2.1, f7.2.1, f5.2.1]; simp [speedStep]
  refine ⟨?_, by rw [e2, f4.2.1, f3.2.1]⟩
  rw [e1]
  rcases f4.1 with h | h
  · left; rw [h, f3.1]
  · right; exact h

theorem levelUpStep_cases {rand : Nat → Nat} {fuel : Nat} {inp : LoopInput}
    {s s' : Session} (h : levelUpStep rand fuel inp s = some s') :
    (s'.state = s.state ∧ s'.currentLevel = s.currentLevel) ∨
    (s.currentLevel = "level 1" ∧ s'.currentLevel = "level 2" ∧
      s'.state = GameState.LEVEL_UP) ∨
    (s.currentLevel = "level 2" ∧ s'.currentLevel = "level 3" ∧
      s'.state = GameState.LEVEL_UP) := by
  unfold levelUpStep at h
  split at h
  · rename_i hc
    simp only [Bool.and_eq_true, beq_iff_eq] at hc
    simp only [Option.some.injEq] at h; subst h
    right; left; exact ⟨hc.2, rfl, rfl⟩
  · split at h
    · rename_i hc
      simp only [Bool.and_eq_true, beq_iff_eq] at hc
      split at h
      · simp at h
      · simp only [Option.some.injEq] at h; subst h
        right; right; exact ⟨hc.2, rfl, rfl⟩
    · simp only [Option.some.injEq] at h; subst h
      left; exact ⟨rfl, rfl⟩

theorem levelUpStep_fires1 {rand : Nat → Nat} {fuel : Nat} {inp : LoopInput}
    {s s' : Session} (h : levelUpStep rand fuel inp s = some s')
    (hp : s.levelUpTriggered = false) (hs : 8 ≤ s.score) (hl : s.currentLevel = "level 1") :
    s'.state = GameState.LEVEL_UP ∧ s'.currentLevel = "level 2" := by
  unfold levelUpStep at h
  have hc : (!s.levelUpTriggered && decide (s.score >= 8) && s.currentLevel == "level 1")
      = true := by
    simp [hp, hs, hl]
  rw [if_pos hc] at h
  simp only [Option.some.injEq] at h; subst h
  exact ⟨rfl, rfl⟩

theorem levelUpStep_fires2 {rand : Nat → Nat} {fuel : Nat} {inp : LoopInput}
    {s s' : Session} (h : levelUpStep rand fuel inp s = some s')
    (hp : s.levelUpTriggered = false) (hs : 15 ≤ s.score) (hl : s.currentLevel = "level 2") :
    s'.state = GameState.LEVEL_UP ∧ s'.currentLevel = "level 3" := by
  unfold levelUpStep at h
  have hc1 : ¬ ((!s.levelUpTriggered && decide (s.score >= 8) && s.currentLevel == "level 1")
      = true) := by
    simp [hl]
  have hc2 : (!s.levelUpTriggered && decide (s.score >= 15) && s.currentLevel == "level 2")
      = true := by
    simp [hp, hs, hl]
  rw [if_neg hc1, if_pos hc2] at h
  split at h
  · simp at h
  · simp only [Option.some.injEq] at h; subst h
    exact ⟨rfl, rfl⟩

theorem activateRandomSnake_frame (s : Session) :
    (activateRandomSnake s).state = s.state ∧
    (activateRandomSnake s).currentLevel = s.currentLevel := by
  unfold activateRandomSnake
  split <;> simp

/-- The two ways through the food phase. -/
theorem foodStep_cases {rand : Nat → Nat} {fuel : Nat} {inp : LoopInput}
    {s s' : Session} (h : foodStep rand fuel inp s = some s') :
    ∃ head tl, s.snake = head :: tl ∧
      ((checkFoodCollision s.foodX s.foodY head = false ∧ s' = s) ∨
       (checkFoodCollision s.foodX s.foodY head = true ∧
        ∃ foodX1 foodY1 pos1 s1,
          generateFood rand fuel s.randCalls s.snake s.obstacles s.randomSnake
            = some (foodX1, foodY1, pos1) ∧
          levelUpStep rand fuel inp
            { s with grow := true,
                     score := s.score + 1,
                     pointsSinceLastBanana := s.pointsSinceLastBanana + 1,
                     foodX := foodX1,
                     foodY := foodY1,
                     randCalls := pos1 } = some s1 ∧
          s' = activateRandomSnake s1)) := by
  unfold foodStep at h
  split at h
  · simp at h
  · rename_i head tl hsnake
    refine ⟨head, tl, hsnake, ?_⟩
    split at h
    · rename_i hfood
      right
      refine ⟨hfood, ?_⟩
      split at h
      · simp at h
      · rename_i foodX1 foodY1 pos1 hgen
        simp only [Option.map_eq_some'] at h
        obtain ⟨s1, hs1, rfl⟩ := h
        exact ⟨foodX1, foodY1, pos1, s1, hgen, hs1, rfl⟩
    · rename_i hfood
      left
      simp only [Option.some.injEq] at h
      exact ⟨by simpa using hfood, h.symm⟩

/-- The food phase moves the level by at most one step, and reaches
`LEVEL_UP` only together with a level change. -/
theorem foodStep_level {rand : Nat → Nat} {fuel : Nat} {inp : LoopInput}
    {s s' : Session} (h : foodStep rand fuel inp s = some s') :
    (s'.state = s.state ∧ s'.currentLevel = s.currentLevel) ∨
    (s.currentLevel = "level 1" ∧ s'.currentLevel = "level 2" ∧
      s'.state = GameState.LEVEL_UP) ∨
    (s.currentLevel = "level 2" ∧ s'.currentLevel = "level 3" ∧
      s'.state = GameState.LEVEL_UP) := by
  obtain ⟨head, tl, -, hcase⟩ := foodStep_cases h
  rcases hcase with ⟨-, rfl⟩ | ⟨-, foodX1, foodY1, pos1, s1, -, hlev, rfl⟩
  · left; exact ⟨rfl, rfl⟩
  · have f := activateRandomSnake_frame s1
    rw [f.1, f.2]
    simpa using levelUpStep_cases hlev

/-- C7 (counterexample): level 1, score 5, no level-up pending, a banana on
the cell ahead. The playing tick eats the banana, the score goes from 5 to 8,
no collision occurs, and yet the state stays `PLAYING` and the level stays
"level 1". -/
theorem levelUp_missed_on_banana :
    bananaAheadSession.state = GameState.PLAYING ∧
    bananaAheadSession.levelUpTriggered = false ∧
    bananaAheadSession.currentLevel = "level 1" ∧
    bananaAheadSession.score = 5 ∧
    (playingTick (randOf []) 1 quietInput bananaAheadSession).map
        (fun t => (t.state, t.score, t.currentLevel)) =
      some (GameState.PLAYING, 8, "level 1") := by
  decide

/-- C7 (amended): in a playing tick that does not end in `GAME_OVER` and
starts with no level-up pending, if the cell ahead of the head is the food
cell, then at level 1 with the score at least 8 after the food point the
state becomes `LEVEL_UP` and the level "level 2", and at level 2 with the
score at least 15 after the food point the state becomes `LEVEL_UP` and the
level "level 3". If the cell ahead is not the food cell, the state stays
`PLAYING` and the level is unchanged, whatever the banana adds to the score. -/
theorem levelUp_on_food_point (rand : Nat → Nat) (fuel : Nat) (inp : LoopInput)
    (s s' : Session) (front : SnakeSegment) (rest : List SnakeSegment)
    (htick : playingTick rand fuel inp s = some s')
    (hplaying : s.state = GameState.PLAYING)
    (halive : s'.state ≠ GameState.GAME_OVER)
    (hpending : s.levelUpTriggered = false)
    (hsnake : s.snake = front :: rest) :
    (neighbour front s.direction = { x := s.foodX, y := s.foodY } →
      (s.currentLevel = "level 1" → 8 ≤ s.score + 1 →
        s'.state = GameState.LEVEL_UP ∧ s'.currentLevel = "level 2") ∧
      (s.currentLevel = "level 2" → 15 ≤ s.score + 1 →
        s'.state = GameState.LEVEL_UP ∧ s'.currentLevel = "level 3")) ∧
    (neighbour front s.direction ≠ { x := s.foodX, y := s.foodY } →
      s'.state = GameState.PLAYING ∧ s'.currentLevel = s.currentLevel) := by
  obtain ⟨s1, s2, s3, s4, s5, h1, h2, h3, h4, h5, h6⟩ := playingTick_phases htick
  obtain ⟨hstate, hlevel⟩ := playingTick_after_food h3 h4 h5 h6
  have hstate2 : s'.state = s2.state := by
    rcases hstate with h | h
    · exact h
    · exact absurd h halive
  obtain ⟨snake1, g1, hmove, rfl⟩ := moveStep_eq h1
  rw [hsnake, updateSnake_cons] at hmove
  simp only [Option.some.injEq, Prod.mk.injEq] at hmove
  obtain ⟨hsn, -⟩ := hmove
  obtain ⟨head, tl, hs1, hcase⟩ := foodStep_cases h2
  simp only at hs1 hcase
  rw [← hsn] at hs1
  simp only [List.cons.injEq] at hs1
  obtain ⟨hhead, -⟩ := hs1
  have hfood_iff : checkFoodCollision s.foodX s.foodY head = true ↔
      neighbour front s.direction = { x := s.foodX, y := s.foodY } := by
    rw [hhead]
    cases head
    simp [checkFoodCollision]
  rw [hstate2, hlevel]
  constructor
  · intro hahead
    rcases hcase with ⟨hno, -⟩ | ⟨-, foodX1, foodY1, pos1, t, -, hlev, rfl⟩
    · rw [hfood_iff.mpr hahead] at hno
      simp at hno
    · have f := activateRandomSnake_frame t
      rw [f.1, f.2]
      constructor
      · intro hl hs
        exact levelUpStep_fires1 hlev hpending hs hl
      · intro hl hs
        exact levelUpStep_fires2 hlev hpending hs hl
  · intro hnot
    rcases hcase with ⟨-, rfl⟩ | ⟨hyes, -⟩
    · exact ⟨hplaying, rfl⟩
    · exact absurd (hfood_iff.mp hyes) hnot

/-- The witness of C7 (amended): score 7 at level 1 with the food ahead. -/
theorem levelUp_on_food_point_witness :
    playingTick (randOf [3, 4]) 1 quietInput foodAheadSession = some foodAheadResult ∧
    foodAheadResult.state = GameState.LEVEL_UP ∧ foodAheadResult.currentLevel = "level 2" :=
  ⟨by decide,
   ((levelUp_on_food_point (randOf [3, 4]) 1 quietInput foodAheadSession foodAheadResult
      { x := 400, y := 300 } foodAheadSession.snake.tail
      (by decide) (by decide) (by decide) (by decide) (by decide)).1 (by decide)).1
        (by decide) (by decide)⟩

/-! ## The main loop -/

theorem handleEvent_state (c : Controls) (e : Event) :
    (handleEvent c e).state = c.state ∨
    (c.state = GameState.PLAYING ∧ (handleEvent c e).state = GameState.PAUSED) ∨
    (c.state = GameState.PAUSED ∧ (handleEvent c e).state = GameState.PLAYING) ∨
    (c.state = GameState.MENU ∧ (handleEvent c e).state = GameState.PLAYING) := by
  unfold handleEvent
  cases e with
  | SDL_QUIT => simp
  | OTHER => simp
  | SDL_KEYDOWN sym =>
    cases sym <;> simp only <;> (try split) <;> (try split) <;> simp_all

theorem handleEvents_levelUp (events : List Event) (c : Controls)
    (h : (handleEvents events c).state = GameState.LEVEL_UP) :
    c.state = GameState.LEVEL_UP := by
  induction events generalizing c with
  | nil => exact h
  | cons e rest ih =>
    have h1 : (handleEvent c e).state = GameState.LEVEL_UP := ih _ h
    rcases handleEvent_state c e with h2 | ⟨-, h2⟩ | ⟨-, h2⟩ | ⟨-, h2⟩
    · rw [← h2]; exact h1
    · rw [h2] at h1; cases h1
    · rw [h2] at h1; cases h1
    · rw [h2] at h1; cases h1

theorem handleEvents_gameOver (events : List Event) (c : Controls)
    (h : c.state = GameState.GAME_OVER) :
    (handleEvents events c).state = GameState.GAME_OVER := by
  induction events generalizing c with
  | nil => exact h
  | cons e rest ih =>
    apply ih
    rcases handleEvent_state c e with h2 | ⟨h2, -⟩ | ⟨h2, -⟩ | ⟨h2, -⟩
    · rw [h2]; exact h
    · rw [h] at h2; cases h2
    · rw [h] at h2; cases h2
    · rw [h] at h2; cases h2

theorem applyEvents_frame (events : List Event) (s : Session) :
    (applyEvents events s).snake = s.snake ∧ (applyEvents events s).score = s.score ∧
    (applyEvents events s).currentLevel = s.currentLevel ∧
    (applyEvents events s).state =
      (handleEvents events
        { direction := s.direction, quit := s.quit, state := s.state }).state := by
  simp [applyEvents]

/-- The level and state part of a playing tick. -/
theorem playingTick_level {rand : Nat → Nat} {fuel : Nat} {inp : LoopInput}
    {s s' : Session} (h : playingTick rand fuel inp s = some s') :
    (s'.currentLevel = s.currentLevel ∧
      (s'.state = s.state ∨ s'.state = GameState.GAME_OVER)) ∨
    (s.currentLevel = "level 1" ∧ s'.currentLevel = "level 2") ∨
    (s.currentLevel = "level 2" ∧ s'.currentLevel = "level 3") := by
  obtain ⟨s1, s2, s3, s4, s5, h1, h2, h3, h4, h5, h6⟩ := playingTick_phases h
  obtain ⟨hstate, hlevel⟩ := playingTick_after_food h3 h4 h5 h6
  obtain ⟨snake1, g1, -, rfl⟩ := moveStep_eq h1
  have hf := foodStep_level h2
  simp only at hf
  rw [hlevel]
  rcases hf with ⟨hs, hl⟩ | ⟨hl1, hl2, -⟩ | ⟨hl1, hl2, -⟩
  · left
    refine ⟨hl, ?_⟩
    rw [← hs]
    exact hstate
  · right; left; exact ⟨hl1, hl2⟩
  · right; right; exact ⟨hl1, hl2⟩

/-- One iteration of the main loop moves the level by at most one step and
enters `LEVEL_UP` only together with a level change. -/
theorem loopBody_level {rand : Nat → Nat} {fuel : Nat} {inp : LoopInput}
    {s s' : Session} (h : loopBody rand fuel inp s = some s') :
    (s'.currentLevel = s.currentLevel ∧
      (s'.state = GameState.LEVEL_UP → s.state = GameState.LEVEL_UP)) ∨
    (s.currentLevel = "level 1" ∧ s'.currentLevel = "level 2") ∨
    (s.currentLevel = "level 2" ∧ s'.currentLevel = "level 3") := by
  have fe := applyEvents_frame inp.events s
  have hev : (applyEvents inp.events s).state = GameState.LEVEL_UP →
      s.state = GameState.LEVEL_UP := by
    intro h0
    rw [fe.2.2.2] at h0
    exact handleEvents_levelUp _ _ h0
  unfold loopBody at h
  simp only at h
  split at h
  · rename_i hst
    rcases playingTick_level h with ⟨hl, hs⟩ | hl | hl
    · left
      refine ⟨by rw [hl, fe.2.2.1], ?_⟩
      intro hup
      rcases hs with hs | hs
      · rw [hs, hst] at hup; cases hup
      · rw [hs] at hup; cases hup
    · right; left; rw [← fe.2.2.1]; exact hl
    · right; right; rw [← fe.2.2.1]; exact hl
  · rename_i hst
    simp only [Option.some.injEq] at h; subst h
    left
    refine ⟨?_, fun _ => hev hst⟩
    rw [← fe.2.2.1]
    unfold levelUpTick
    simp only
    split <;> split <;> simp
  · rename_i hst
    simp only [Option.some.injEq] at h; subst h
    left
    constructor
    · rw [← fe.2.2.1]
      unfold countdownTick
      split <;> simp
    · unfold countdownTick
      split
      · intro hup; cases hup
      · intro hup; rw [hst] at hup; cases hup
  · simp only [Option.some.injEq] at h; subst h
    left; exact ⟨fe.2.2.1, hev⟩
  · simp only [Option.some.injEq] at h; subst h
    left; exact ⟨fe.2.2.1, hev⟩
  · simp only [Option.some.injEq] at h; subst h
    left; exact ⟨fe.2.2.1, hev⟩

/-- A property kept by every iteration is kept by every run of the loop. -/
theorem mainLoop_invariant {rand : Nat → Nat} {fuel : Nat} (P : Session → Prop)
    (hstep : ∀ inp s s', P s → loopBody rand fuel inp s = some s' → P s')
    (inputs : List LoopInput) (s t : Session) (hs : P s)
    (hrun : mainLoop rand fuel inputs s = some t) : P t := by
  induction inputs generalizing s with
  | nil =>
    simp only [mainLoop, Option.some.injEq] at hrun
    exact hrun ▸ hs
  | cons inp rest ih =>
    unfold mainLoop at hrun
    split at hrun
    · simp only [Option.some.injEq] at hrun
      exact hrun ▸ hs
    · split at hrun
      · simp at hrun
      · rename_i s1 h1
        exact ih s1 (hstep inp s s1 hs h1) hrun

theorem level_ne_12 : ("level 1" : String) ≠ "level 2" := by decide
theorem level_ne_13 : ("level 1" : String) ≠ "level 3" := by decide
theorem level_ne_23 : ("level 2" : String) ≠ "level 3" := by decide

/-- C8: along every run from the initial session, one iteration leaves the
level unchanged or moves it from "level 1" to "level 2" or from "level 2" to
"level 3" (never down, never from 1 to 3); an iteration that starts in
`PLAYING` and ends in `LEVEL_UP` has changed the level; and of two
level-changing iterations of the same run, the later one is not the same
change as the earlier one, so each change happens at most once. -/
theorem level_progress (rand : Nat → Nat) (fuel startTime : Nat) (bananaX0 bananaY0 : Int)
    (pre mid : List LoopInput) (inp inp2 : LoopInput) (s0 s s' t t' : Session)
    (_hinit : initSession rand fuel startTime bananaX0 bananaY0 = some s0)
    (_hpre : mainLoop rand fuel pre s0 = some s)
    (hstep : loopBody rand fuel inp s = some s')
    (hmid : mainLoop rand fuel mid s' = some t)
    (_hstep2 : loopBody rand fuel inp2 t = some t') :
    (s'.currentLevel = s.currentLevel ∨
      (s.currentLevel = "level 1" ∧ s'.currentLevel = "level 2") ∨
      (s.currentLevel = "level 2" ∧ s'.currentLevel = "level 3")) ∧
    (s.state = GameState.PLAYING → s'.state = GameState.LEVEL_UP →
      s'.currentLevel ≠ s.currentLevel) ∧
    (s'.currentLevel ≠ s.currentLevel → t'.currentLevel ≠ t.currentLevel →
      ¬ (t.currentLevel = s.currentLevel ∧ t'.currentLevel = s'.currentLevel)) := by
  have hA := loopBody_level hstep
  refine ⟨?_, ?_, ?_⟩
  · rcases hA with ⟨h, -⟩ | h | h
    · left; exact h
    · right; left; exact h
    · right; right; exact h
  · intro hplay hup
    rcases hA with ⟨-, h⟩ | ⟨h1, h2⟩ | ⟨h1, h2⟩
    · rw [h hup] at hplay; cases hplay
    · rw [h1, h2]; exact level_ne_12.symm
    · rw [h1, h2]; exact level_ne_23.symm
  · intro hchange _ hsame
    have keep23 : ∀ (i : LoopInput) (u u' : Session),
        (u.currentLevel = "level 2" ∨ u.currentLevel = "level 3") →
        loopBody rand fuel i u = some u' →
        (u'.currentLevel = "level 2" ∨ u'.currentLevel = "level 3") := by
      intro i u u' hu hb
      rcases loopBody_level hb with ⟨h, -⟩ | ⟨-, h⟩ | ⟨-, h⟩
      · rw [h]; exact hu
      · left; exact h
      · right; exact h
    have keep3 : ∀ (i : LoopInput) (u u' : Session),
        u.currentLevel = "level 3" → loopBody rand fuel i u = some u' →
        u'.currentLevel = "level 3" := by
      intro i u u' hu hb
      rcases loopBody_level hb with ⟨h, -⟩ | ⟨h, -⟩ | ⟨h, -⟩
      · rw [h]; exact hu
      · rw [hu] at h; exact absurd h level_ne_13.symm
      · rw [hu] at h; exact absurd h level_ne_23.symm
    rcases hA with ⟨h, -⟩ | ⟨h1, h2⟩ | ⟨h1, h2⟩
    · exact hchange h
    · have ht := mainLoop_invariant
        (fun u => u.currentLevel = "level 2" ∨ u.currentLevel = "level 3")
        keep23 mid s' t (Or.inl h2) hmid
      rw [h1] at hsame
      rcases ht with ht | ht
      · rw [ht] at hsame; exact level_ne_12 hsame.1.symm
      · rw [ht] at hsame; exact level_ne_13 hsame.1.symm
    · have ht := mainLoop_invariant (fun u => u.currentLevel = "level 3")
        keep3 mid s' t h2 hmid
      rw [h1, ht] at hsame
      exact level_ne_23 hsame.1.symm

theorem loopBody_gameOver (rand : Nat → Nat) (fuel : Nat) (inp : LoopInput) (s : Session)
    (h : s.state = GameState.GAME_OVER) :
    loopBody rand fuel inp s = some (applyEvents inp.events s) ∧
    (applyEvents inp.events s).state = GameState.GAME_OVER := by
  have fe := applyEvents_frame inp.events s
  have hst : (applyEvents inp.events s).state = GameState.GAME_OVER := by
    rw [fe.2.2.2]
    exact handleEvents_gameOver _ _ h
  refine ⟨?_, hst⟩
  unfold loopBody
  simp only [hst]

/-- C9: from a session in state `GAME_OVER`, every run of the main loop, on
any list of iterations with any events, returns a session that is still in
`GAME_OVER`, with the same snake cells, score and level. -/
theorem gameOver_terminal (rand : Nat → Nat) (fuel : Nat) (inputs : List LoopInput)
    (s : Session) (h : s.state = GameState.GAME_OVER) :
    ∃ t, mainLoop rand fuel inputs s = some t ∧ t.state = GameState.GAME_OVER ∧
      t.snake = s.snake ∧ t.score = s.score ∧ t.currentLevel = s.currentLevel := by
  induction inputs generalizing s with
  | nil => exact ⟨s, rfl, h, rfl, rfl, rfl⟩
  | cons inp rest ih =>
    unfold mainLoop
    by_cases hq : s.quit = true
    · rw [if_pos hq]
      exact ⟨s, rfl, h, rfl, rfl, rfl⟩
    · rw [if_neg hq]
      obtain ⟨hbody, hst⟩ := loopBody_gameOver rand fuel inp s h
      rw [hbody]
      simp only
      obtain ⟨t, ht, h1, h2, h3, h4⟩ := ih (applyEvents inp.events s) hst
      have fe := applyEvents_frame inp.events s
      exact ⟨t, ht, h1, by rw [h2, fe.1], by rw [h3, fe.2.1], by rw [h4, fe.2.2.1]⟩

/-- The witness of C8: the sample game, where the iteration from `demo7` to
`demo8` moves the level from 1 to 2 and the later iteration from `demo14` to
`demo15` moves it from 2 to 3. -/
theorem level_progress_witness :
    (demo7.currentLevel = "level 1" ∧ demo8.currentLevel = "level 2" ∧
      demo14.currentLevel = "level 2" ∧ demo15.currentLevel = "level 3") ∧
    ((demo8.currentLevel = demo7.currentLevel ∨
      (demo7.currentLevel = "level 1" ∧ demo8.currentLevel = "level 2") ∨
      (demo7.currentLevel = "level 2" ∧ demo8.currentLevel = "level 3")) ∧
    (demo7.state = GameState.PLAYING → demo8.state = GameState.LEVEL_UP →
      demo8.currentLevel ≠ demo7.currentLevel) ∧
    (demo8.currentLevel ≠ demo7.currentLevel → demo15.currentLevel ≠ demo14.currentLevel →
      ¬ (demo14.currentLevel = demo7.currentLevel ∧
          demo15.currentLevel = demo8.currentLevel))) :=
  ⟨by decide,
   level_progress demoRand 1 0 0 0 demoPre demoMid (tickAt [] 1010) (tickAt [] 7800)
     demo0 demo7 demo8 demo14 demo15 (by decide) (by decide) (by decide) (by decide)
     (by decide)⟩

/-- The witness of C9: P, Enter and arrow keys over two iterations leave a
`GAME_OVER` session in `GAME_OVER`. -/
theorem gameOver_terminal_witness :
    gameOverSession.state = GameState.GAME_OVER ∧
    ∃ t, mainLoop (randOf []) 1 gameOverInputs gameOverSession = some t ∧
      t.state = GameState.GAME_OVER ∧ t.snake = gameOverSession.snake ∧
      t.score = gameOverSession.score ∧ t.currentLevel = gameOverSession.currentLevel :=
  ⟨by decide, gameOver_terminal (randOf []) 1 gameOverInputs gameOverSession (by decide)⟩

/-- C10 (evaluation at the failing input): score 5, five food points since
the start, a banana that appeared at time 1000 and is never reached. The
iteration at time 6000 lets it expire; the score and the counter are
unchanged. The very next iteration, at time 6130, spawns a new banana at
(200,200) although no food point has been earned since the previous banana
appeared, and the counter is still 5 after the spawn. -/
theorem banana_respawns_after_expiry :
    (loopBody (randOf [8, 8]) 1 (tickAt [] 6000) bananaWaitingSession).map
        (fun t => (t.bananaActive, t.score, t.pointsSinceLastBanana)) =
      some (false, 5, 5) ∧
    (mainLoop (randOf [8, 8]) 1 [tickAt [] 6000, tickAt [] 6130] bananaWaitingSession).map
        (fun t => (t.bananaActive, t.bananaX, t.bananaY, t.bananaSpawnTime, t.score,
                   t.pointsSinceLastBanana)) =
      some (true, 200, 200, 6130, 5, 5) := by
  decide


/-! ## Key events and the game state -/

/-- C13: a P key turns `PLAYING` into `PAUSED` and `PAUSED` into `PLAYING`
and leaves every other state unchanged, so two P keys restore any state;
Enter turns `MENU` into `PLAYING` and leaves every other state unchanged;
arrow keys and any other key leave the state unchanged. -/
theorem key_state_effect (d k : Direction) (q : Bool) (st : GameState) :
    (handleEvents [Event.SDL_KEYDOWN Key.SDLK_p]
        { direction := d, quit := q, state := st }).state =
      (match st with
       | GameState.PLAYING => GameState.PAUSED
       | GameState.PAUSED => GameState.PLAYING
       | other => other) ∧
    (handleEvents [Event.SDL_KEYDOWN Key.SDLK_p, Event.SDL_KEYDOWN Key.SDLK_p]
        { direction := d, quit := q, state := st }).state = st ∧
    (handleEvents [Event.SDL_KEYDOWN Key.SDLK_RETURN]
        { direction := d, quit := q, state := st }).state =
      (if st = GameState.MENU then GameState.PLAYING else st) ∧
    (handleEvents [Event.SDL_KEYDOWN (arrowKey k)]
        { direction := d, quit := q, state := st }).state = st ∧
    (handleEvents [Event.SDL_KEYDOWN Key.OTHER]
        { direction := d, quit := q, state := st }).state = st := by
  cases st <;> cases d <;> cases k <;> simp [handleEvents, handleEvent, arrowKey]

/-! ## The tick delay -/

theorem wrap64_small (n : Nat) (h1 : 1 ≤ n) (h2 : n ≤ 27) :
    (18446744073709551616 + 130 -
        (18446744073709551616 + n - 1) % 18446744073709551616 * 5 % 18446744073709551616)
      % 18446744073709551616 = 130 - (n - 1) * 5 := by
  omega

theorem wrap64_large (n : Nat) (h1 : 28 ≤ n) (h2 : n ≤ 768) :
    (18446744073709551616 + 130 -
        (18446744073709551616 + n - 1) % 18446744073709551616 * 5 % 18446744073709551616)
      % 18446744073709551616 = 18446744073709551616 + 130 - (n - 1) * 5 := by
  omega

theorem toInt32_small (m : Nat) (h : m < 2147483648) : toInt32 m = (m : Int) := by
  unfold toInt32
  have e : m % 4294967296 = m := by omega
  rw [e, if_pos h]

theorem toInt32_wrapped (k : Nat) (h1 : 1 ≤ k) (h2 : k ≤ 2147483648) :
    toInt32 (18446744073709551616 - k) = -(k : Int) := by
  unfold toInt32
  have e : (18446744073709551616 - k) % 4294967296 = 4294967296 - k := by omega
  have e6 : ¬ (4294967296 - k < 2147483648) := by omega
  rw [e, if_neg e6]
  omega

theorem speedForSize_eq (n : Nat) (h1 : 1 ≤ n) (h2 : n ≤ 768) :
    speedForSize n = max 50 (130 - 5 * ((n : Int) - 1)) := by
  have e1 : Int.toNat ((130 : Int) % 18446744073709551616) = 130 := by decide
  unfold speedForSize customMax maxSnakeSpeed initialSnakeSpeed
  simp only
  rw [e1]
  clear e1
  by_cases hn : n ≤ 27
  · rw [wrap64_small n h1 hn, toInt32_small _ (by omega)]
    split <;> omega
  · have hk : 18446744073709551616 + 130 - (n - 1) * 5
        = 18446744073709551616 - ((n - 1) * 5 - 130) := by omega
    rw [wrap64_large n (by omega) h2, hk, toInt32_wrapped _ (by omega) (by omega)]
    split <;> omega

/-- C14: for a snake of `n` cells, `1 <= n <= 768`, the delay computed at
line 752 (unsigned 64-bit arithmetic, then conversion to a 32-bit `int`) is
`max(50, 130 - 5*(n-1))` over the integers; it is 130 for one cell, drops by
5 for each further cell up to 17 cells, is 50 from 17 cells on, and stays in
`[50, 130]`. -/
theorem tick_delay_formula (n : Nat) (h1 : 1 ≤ n) (h2 : n ≤ 768) :
    (∀ s : Session, s.snake.length = n →
      (speedStep s).snakeSpeed = max 50 (130 - 5 * ((n : Int) - 1))) ∧
    speedForSize 1 = 130 ∧
    (n ≤ 16 → speedForSize (n + 1) = speedForSize n - 5) ∧
    (17 ≤ n → speedForSize n = 50) ∧
    50 ≤ speedForSize n ∧ speedForSize n ≤ 130 := by
  have h := speedForSize_eq n h1 h2
  refine ⟨?_, by decide, ?_, ?_, ?_, ?_⟩
  · intro s hs
    simp only [speedStep, hs]
    exact h
  · intro h16
    rw [speedForSize_eq (n + 1) (by omega) (by omega), h]
    push_cast
    omega
  · intro h17
    rw [h]; omega
  · rw [h]; omega
  · rw [h]; omega

/-- The witness of C14: 30 cells, where the unsigned subtraction wraps. -/
theorem tick_delay_formula_witness :
    (∀ s : Session, s.snake.length = 30 →
      (speedStep s).snakeSpeed = max 50 (130 - 5 * (((30 : Nat) : Int) - 1))) ∧
    speedForSize 1 = 130 ∧
    (30 ≤ 16 → speedForSize (30 + 1) = speedForSize 30 - 5) ∧
    (17 ≤ 30 → speedForSize 30 = 50) ∧
    50 ≤ speedForSize 30 ∧ speedForSize 30 ≤ 130 :=
  tick_delay_formula 30 (by decide) (by decide)

/-! ## Obstacle generation -/

theorem stone_coord_bounds (r : Nat) :
    (((r : Int) % (SCREEN_WIDTH / OBSTACLE_SIZE)) * OBSTACLE_SIZE) % 50 = 0 ∧
    0 ≤ ((r : Int) % (SCREEN_WIDTH / OBSTACLE_SIZE)) * OBSTACLE_SIZE ∧
    ((r : Int) % (SCREEN_WIDTH / OBSTACLE_SIZE)) * OBSTACLE_SIZE < 800 ∧
    (((r : Int) % (SCREEN_HEIGHT / OBSTACLE_SIZE)) * OBSTACLE_SIZE) % 50 = 0 ∧
    0 ≤ ((r : Int) % (SCREEN_HEIGHT / OBSTACLE_SIZE)) * OBSTACLE_SIZE ∧
    ((r : Int) % (SCREEN_HEIGHT / OBSTACLE_SIZE)) * OBSTACLE_SIZE < 600 := by
  simp only [SCREEN_WIDTH, SCREEN_HEIGHT, OBSTACLE_SIZE]
  omega

theorem any_corner_eq_false {rects : List SDL_Rect} {px py : Int}
    (h : rects.any (fun obstacle => obstacle.x == px && obstacle.y == py) = false) :
    ∀ o ∈ rects, ¬ (o.x = px ∧ o.y = py) := by
  intro o ho hxy
  have : rects.any (fun obstacle => obstacle.x == px && obstacle.y == py) = true := by
    simp only [List.any_eq_true, Bool.and_eq_true, beq_iff_eq]
    exact ⟨o, ho, hxy⟩
  simp [h] at this

/-- What the inner loop of `generateObstacles` guarantees for the rectangle
it returns. -/
theorem placeObstacle_spec {rand : Nat → Nat} {fuel pos : Nat} {snake : List SnakeSegment}
    {obstacles : List SDL_Rect} {o : SDL_Rect} {pos1 : Nat}
    (h : placeObstacle rand fuel pos snake obstacles = some (o, pos1)) :
    isStone o ∧ (∀ c ∈ snake, ¬ (c.x = o.x ∧ c.y = o.y)) ∧
    (∀ p ∈ obstacles, ¬ (p.x = o.x ∧ p.y = o.y)) := by
  induction fuel generalizing pos with
  | zero => simp [placeObstacle] at h
  | succ n ih =>
    unfold placeObstacle at h
    simp only at h
    split at h
    · rename_i hvalid
      simp only [Option.some.injEq, Prod.mk.injEq] at h
      obtain ⟨ho, -⟩ := h
      simp only [Bool.and_eq_true, Bool.not_eq_true'] at hvalid
      obtain ⟨hs, hp⟩ := hvalid
      have hb1 := stone_coord_bounds (rand pos)
      have hb2 := stone_coord_bounds (rand (pos + 1))
      subst ho
      refine ⟨?_, any_cell_eq_false hs, any_corner_eq_false hp⟩
      unfold isStone
      simp only [OBSTACLE_SIZE, true_and]
      simp only [OBSTACLE_SIZE] at hb1 hb2
      exact ⟨hb1.1, hb1.2.1, hb1.2.2.1, hb2.2.2.2.1, hb2.2.2.2.2.1, hb2.2.2.2.2.2⟩
    · exact ih h

/-- C16: whenever `generateObstacles` returns (the old list is cleared on
entry, so it is not an argument), the new list holds exactly 3 rectangles,
each 50x50 with `x` a multiple of 50 in `[0,800)` and `y` a multiple of 50 in
`[0,600)`, at pairwise distinct positions. -/
theorem generateObstacles_spec (rand : Nat → Nat) (fuel pos : Nat) (snake : List SnakeSegment)
    (obstacles1 : List SDL_Rect) (pos1 : Nat)
    (h : generateObstacles rand fuel pos snake = some (obstacles1, pos1)) :
    ∃ a b c, obstacles1 = [a, b, c] ∧ isStone a ∧ isStone b ∧ isStone c ∧
      ¬ (a.x = b.x ∧ a.y = b.y) ∧ ¬ (a.x = c.x ∧ a.y = c.y) ∧ ¬ (b.x = c.x ∧ b.y = c.y) := by
  unfold generateObstacles at h
  unfold placeObstacles at h
  split at h
  · simp at h
  · rename_i a pa ha
    unfold placeObstacles at h
    split at h
    · simp at h
    · rename_i b pb hb
      unfold placeObstacles at h
      split at h
      · simp at h
      · rename_i c pc hc
        simp only [placeObstacles, Option.some.injEq, Prod.mk.injEq] at h
        obtain ⟨hl, -⟩ := h
        have sa := placeObstacle_spec ha
        have sb := placeObstacle_spec hb
        have sc := placeObstacle_spec hc
        refine ⟨a, b, c, by rw [← hl]; simp, sa.1, sb.1, sc.1, ?_, ?_, ?_⟩
        · exact sb.2.2 a (by simp)
        · exact sc.2.2 a (by simp)
        · exact sc.2.2 b (by simp)

/-- The witness of C16: the random values 2, 8, 2, 8, 4, 8, 6, 8 (the second
draw repeats the first stone and is rejected). -/
theorem generateObstacles_spec_witness :
    generateObstacles (randOf [2, 8, 2, 8, 4, 8, 6, 8]) 2 0 playingSession.snake =
      some ([{ x := 100, y := 400, w := 50, h := 50 }, { x := 200, y := 400, w := 50, h := 50 },
             { x := 300, y := 400, w := 50, h := 50 }], 8) ∧
    ∃ a b c, [{ x := 100, y := 400, w := 50, h := 50 }, { x := 200, y := 400, w := 50, h := 50 },
              { x := 300, y := 400, w := 50, h := 50 }] = [a, b, c] ∧
      isStone a ∧ isStone b ∧ isStone c ∧
      ¬ (a.x = b.x ∧ a.y = b.y) ∧ ¬ (a.x = c.x ∧ a.y = c.y) ∧ ¬ (b.x = c.x ∧ b.y = c.y) :=
  ⟨by decide,
   generateObstacles_spec (randOf [2, 8, 2, 8, 4, 8, 6, 8]) 2 0 playingSession.snake _ 8
     (by decide)⟩

/-! ## The random snake -/

theorem length_cons_dropLast (a front : SnakeSegment) (rest : List SnakeSegment) :
    ((a :: front :: rest).dropLast).length = (front :: rest).length := by
  simp [List.length_dropLast]

/-- The three ways through `updateRandomSnake` for a snake with at least one
cell. -/
theorem updateRandomSnake_cases (rand : Nat → Nat) (pos : Nat) (rs : RandomSnake)
    (obstacles : List SDL_Rect) (currentTime : Nat) (front : SnakeSegment)
    (rest : List SnakeSegment) (hseg : rs.segments = front :: rest) :
    ∃ rs1 pos1, updateRandomSnake rand pos rs obstacles currentTime = some (rs1, pos1) ∧
      ((¬ (u32sub currentTime rs.lastMoveTime >
            Int.toNat (rs.moveInterval % (UINT32 : Int))) ∧ rs1 = rs ∧ pos1 = pos) ∨
       (u32sub currentTime rs.lastMoveTime > Int.toNat (rs.moveInterval % (UINT32 : Int)) ∧
        obstacles.any (fun o => hitsRect (wrapHead (shiftHead front rs1.direction)) o) = true ∧
        rs1.segments = rs.segments ∧ rs1.lastMoveTime = rs.lastMoveTime ∧
        rs1.moveInterval = rs.moveInterval) ∨
       (u32sub currentTime rs.lastMoveTime > Int.toNat (rs.moveInterval % (UINT32 : Int)) ∧
        obstacles.any (fun o => hitsRect (wrapHead (shiftHead front rs1.direction)) o) = false ∧
        rs1.segments = wrapHead (shiftHead front rs1.direction) :: (front :: rest).dropLast ∧
        rs1.lastMoveTime = currentTime % UINT32 ∧ rs1.moveInterval = rs.moveInterval)) := by
  unfold updateRandomSnake
  by_cases ht : u32sub currentTime rs.lastMoveTime > Int.toNat (rs.moveInterval % (UINT32 : Int))
  · rw [if_pos ht, hseg]
    simp only
    generalize (if decide (rand pos % 4 = 0) = true then directionOfNat (rand (pos + 1) % 4)
      else rs.direction) = d1
    generalize (if decide (rand pos % 4 = 0) = true then pos + 2 else pos + 1) = p1
    cases hc : obstacles.any (fun o => hitsRect (wrapHead (shiftHead front d1)) o)
    · refine ⟨_, _, rfl, Or.inr (Or.inr ⟨ht, hc, ?_, rfl, rfl⟩)⟩
      simp [hseg]
    · exact ⟨_, _, rfl, Or.inr (Or.inl ⟨ht, hc, rfl, rfl, rfl⟩)⟩
  · rw [if_neg ht]
    exact ⟨rs, pos, rfl, Or.inl ⟨ht, rfl, rfl⟩⟩

theorem wrapHead_neighbour_onBoard (front : SnakeSegment) (d : Direction)
    (h : onBoard front) : onBoard (wrapHead (shiftHead front d)) := by
  unfold onBoard at *
  rw [shiftHead_eq_neighbour]
  cases d <;> simp only [neighbour, wrapHead, SCREEN_WIDTH, SCREEN_HEIGHT, SNAKE_SIZE] <;>
    (split <;> split <;> (try split) <;> (try split) <;> omega)

theorem hitsRect_iff (c : SnakeSegment) (o : SDL_Rect) : hitsRect c o = true ↔ overlaps c o := by
  simp only [hitsRect, overlaps, Bool.and_eq_true, decide_eq_true_eq, SNAKE_SIZE, gt_iff_lt,
    and_assoc]

theorem any_hitsRect_iff (c : SnakeSegment) (obstacles : List SDL_Rect) :
    obstacles.any (fun o => hitsRect c o) = true ↔ ∃ o ∈ obstacles, overlaps c o := by
  simp only [List.any_eq_true, hitsRect_iff]

/-- C12: for a random snake whose head `front` is a cell of the board,
`updateRandomSnake` returns, and the new head is again a cell of the board;
when the move commits (the cells change), a head moving left from `x = 0`
lands on `x = 775`, right from `x = 775` on `x = 0`, up from `y = 0` on
`y = 575`, down from `y = 575` on `y = 0`, the other coordinate unchanged. -/
theorem randomSnake_head_wraps (rand : Nat → Nat) (pos : Nat) (rs : RandomSnake)
    (obstacles : List SDL_Rect) (currentTime : Nat) (front : SnakeSegment)
    (rest : List SnakeSegment) (hseg : rs.segments = front :: rest) (hfront : onBoard front) :
    ∃ rs1 pos1 head1 rest1,
      updateRandomSnake rand pos rs obstacles currentTime = some (rs1, pos1) ∧
      rs1.segments = head1 :: rest1 ∧ onBoard head1 ∧
      (rs1.segments ≠ rs.segments →
        (rs1.direction = Direction.LEFT → front.x = 0 →
          head1 = { x := 775, y := front.y }) ∧
        (rs1.direction = Direction.RIGHT → front.x = 775 →
          head1 = { x := 0, y := front.y }) ∧
        (rs1.direction = Direction.UP → front.y = 0 →
          head1 = { x := front.x, y := 575 }) ∧
        (rs1.direction = Direction.DOWN → front.y = 575 →
          head1 = { x := front.x, y := 0 })) := by
  obtain ⟨rs1, pos1, hres, hcase⟩ :=
    updateRandomSnake_cases rand pos rs obstacles currentTime front rest hseg
  rcases hcase with ⟨-, rfl, -⟩ | ⟨-, -, hsame, -, -⟩ | ⟨-, -, hnew, -, -⟩
  · exact ⟨rs1, pos1, front, rest, hres, hseg, hfront, fun h => absurd rfl h⟩
  · exact ⟨rs1, pos1, front, rest, hres, by rw [hsame, hseg], hfront,
      fun h => absurd hsame h⟩
  · refine ⟨rs1, pos1, _, _, hres, hnew, wrapHead_neighbour_onBoard front _ hfront, ?_⟩
    intro _
    unfold onBoard at hfront
    refine ⟨?_, ?_, ?_, ?_⟩ <;> intro hd hx <;> rw [hd] <;>
      simp only [shiftHead, wrapHead, SCREEN_WIDTH, SCREEN_HEIGHT, SNAKE_SIZE, hx,
        SnakeSegment.mk.injEq] <;>
      constructor <;> (repeat' split) <;> omega

/-- The witness of C12: the head (0,100) moving left lands on (775,100). -/
theorem randomSnake_head_wraps_witness :
    updateRandomSnake (randOf [1]) 0 hazardAtEdge [] 600 =
      some ({ hazardAtEdge with
                segments := [{ x := 775, y := 100 }, { x := 0, y := 100 }, { x := 25, y := 100 }],
                lastMoveTime := 600 }, 1) ∧
    ∃ rs1 pos1 head1 rest1,
      updateRandomSnake (randOf [1]) 0 hazardAtEdge [] 600 = some (rs1, pos1) ∧
      rs1.segments = head1 :: rest1 ∧ onBoard head1 ∧
      (rs1.segments ≠ hazardAtEdge.segments →
        (rs1.direction = Direction.LEFT → (0 : Int) = 0 →
          head1 = { x := 775, y := 100 }) ∧
        (rs1.direction = Direction.RIGHT → (0 : Int) = 775 →
          head1 = { x := 0, y := 100 }) ∧
        (rs1.direction = Direction.UP → (100 : Int) = 0 →
          head1 = { x := 0, y := 575 }) ∧
        (rs1.direction = Direction.DOWN → (100 : Int) = 575 →
          head1 = { x := 0, y := 0 })) :=
  ⟨by decide,
   randomSnake_head_wraps (randOf [1]) 0 hazardAtEdge [] 600
     { x := 0, y := 100 } [{ x := 25, y := 100 }, { x := 50, y := 100 }] rfl (by decide)⟩

/-- C17: for a random snake with at least one cell and a 32-bit clock value
`currentTime`, `updateRandomSnake` returns and keeps the number of cells.
When the unsigned difference `currentTime - lastMoveTime` is at most
`moveInterval`, the whole snake is unchanged and no random value is consumed.
When it is larger and the wrapped candidate head overlaps an obstacle, the
cells and `lastMoveTime` are unchanged. Otherwise the cells become the
candidate head followed by the old cells without the last one, and
`lastMoveTime` becomes `currentTime`. -/
theorem updateRandomSnake_frame (rand : Nat → Nat) (pos : Nat) (rs : RandomSnake)
    (obstacles : List SDL_Rect) (currentTime : Nat) (front : SnakeSegment)
    (rest : List SnakeSegment) (hseg : rs.segments = front :: rest)
    (htime : currentTime < UINT32) :
    ∃ rs1 pos1, updateRandomSnake rand pos rs obstacles currentTime = some (rs1, pos1) ∧
      rs1.segments.length = rs.segments.length ∧
      (u32sub currentTime rs.lastMoveTime ≤ Int.toNat (rs.moveInterval % (UINT32 : Int)) →
        rs1 = rs ∧ pos1 = pos) ∧
      (u32sub currentTime rs.lastMoveTime > Int.toNat (rs.moveInterval % (UINT32 : Int)) →
        ((∃ o ∈ obstacles, overlaps (wrapHead (shiftHead front rs1.direction)) o) →
          rs1.segments = rs.segments ∧ rs1.lastMoveTime = rs.lastMoveTime) ∧
        ((¬ ∃ o ∈ obstacles, overlaps (wrapHead (shiftHead front rs1.direction)) o) →
          rs1.segments = wrapHead (shiftHead front rs1.direction) :: (front :: rest).dropLast ∧
          rs1.lastMoveTime = currentTime)) := by
  obtain ⟨rs1, pos1, hres, hcase⟩ :=
    updateRandomSnake_cases rand pos rs obstacles currentTime front rest hseg
  refine ⟨rs1, pos1, hres, ?_⟩
  rcases hcase with ⟨hno, rfl, rfl⟩ | ⟨hyes, hhit, hsame, hlast, -⟩ | ⟨hyes, hfree, hnew, hlast, -⟩
  · refine ⟨rfl, fun _ => ⟨rfl, rfl⟩, fun h => absurd h hno⟩
  · rw [any_hitsRect_iff] at hhit
    refine ⟨by rw [hsame], fun h => absurd hyes (not_lt.mpr h), fun _ => ⟨fun _ => ⟨hsame, hlast⟩,
      fun h => absurd hhit h⟩⟩
  · have hfree2 : ¬ ∃ o ∈ obstacles, overlaps (wrapHead (shiftHead front rs1.direction)) o := by
      rw [← any_hitsRect_iff]
      simp [hfree]
    rw [Nat.mod_eq_of_lt htime] at hlast
    refine ⟨?_, fun h => absurd hyes (not_lt.mpr h), fun _ => ⟨fun h => absurd h hfree2,
      fun _ => ⟨hnew, hlast⟩⟩⟩
    rw [hnew, hseg]
    exact length_cons_dropLast _ front rest

/-- The witness of C17: the interval has elapsed, the candidate head (75,50)
overlaps the stone at (50,50), and the snake stays where it is. -/
theorem updateRandomSnake_frame_witness :
    updateRandomSnake (randOf [1]) 0 hazardAtStone oneStone 600 = some (hazardAtStone, 1) ∧
    ∃ rs1 pos1, updateRandomSnake (randOf [1]) 0 hazardAtStone oneStone 600 = some (rs1, pos1) ∧
      rs1.segments.length = hazardAtStone.segments.length ∧
      (u32sub 600 hazardAtStone.lastMoveTime ≤
          Int.toNat (hazardAtStone.moveInterval % (UINT32 : Int)) →
        rs1 = hazardAtStone ∧ pos1 = 0) ∧
      (u32sub 600 hazardAtStone.lastMoveTime >
          Int.toNat (hazardAtStone.moveInterval % (UINT32 : Int)) →
        ((∃ o ∈ oneStone, overlaps (wrapHead (shiftHead { x := 100, y := 50 } rs1.direction)) o) →
          rs1.segments = hazardAtStone.segments ∧
          rs1.lastMoveTime = hazardAtStone.lastMoveTime) ∧
        ((¬ ∃ o ∈ oneStone,
            overlaps (wrapHead (shiftHead { x := 100, y := 50 } rs1.direction)) o) →
          rs1.segments = wrapHead (shiftHead { x := 100, y := 50 } rs1.direction) ::
            ([{ x := 100, y := 50 }, { x := 125, y := 50 }, { x := 150, y := 50 }] :
              List SnakeSegment).dropLast ∧
          rs1.lastMoveTime = 600)) :=
  ⟨by decide,
   updateRandomSnake_frame (randOf [1]) 0 hazardAtStone oneStone 600
     { x := 100, y := 50 } [{ x := 125, y := 50 }, { x := 150, y := 50 }] rfl (by decide)⟩

/-! ## The banana -/

theorem levelUpStep_frame {rand : Nat → Nat} {fuel : Nat} {inp : LoopInput}
    {s s' : Session} (h : levelUpStep rand fuel inp s = some s') :
    s'.snake = s.snake ∧ s'.score = s.score ∧ s'.bananaActive = s.bananaActive ∧
    s'.bananaX = s.bananaX ∧ s'.bananaY = s.bananaY ∧
    s'.bananaSpawnTime = s.bananaSpawnTime ∧
    s'.pointsSinceLastBanana = s.pointsSinceLastBanana := by
  unfold levelUpStep at h
  split at h
  · simp only [Option.some.injEq] at h; subst h; simp
  · split at h
    · split at h
      · simp at h
      · simp only [Option.some.injEq] at h; subst h; simp
    · simp only [Option.some.injEq] at h; subst h; simp

theorem activateRandomSnake_frame2 (s : Session) :
    (activateRandomSnake s).snake = s.snake ∧ (activateRandomSnake s).score = s.score ∧
    (activateRandomSnake s).bananaActive = s.bananaActive ∧
    (activateRandomSnake s).bananaX = s.bananaX ∧ (activateRandomSnake s).bananaY = s.bananaY ∧
    (activateRandomSnake s).bananaSpawnTime = s.bananaSpawnTime ∧
    (activateRandomSnake s).pointsSinceLastBanana = s.pointsSinceLastBanana := by
  unfold activateRandomSnake
  split <;> simp

/-- The food phase keeps the snake and the banana, and adds one point exactly
when the head is on the food cell. -/
theorem foodStep_frame {rand : Nat → Nat} {fuel : Nat} {inp : LoopInput}
    {s s' : Session} {head : SnakeSegment} {tl : List SnakeSegment}
    (hsnake : s.snake = head :: tl) (h : foodStep rand fuel inp s = some s') :
    s'.snake = s.snake ∧
    s'.score = s.score + (if checkFoodCollision s.foodX s.foodY head = true then 1 else 0) ∧
    s'.bananaActive = s.bananaActive ∧ s'.bananaX = s.bananaX ∧ s'.bananaY = s.bananaY ∧
    s'.bananaSpawnTime = s.bananaSpawnTime := by
  obtain ⟨head1, tl1, hs1, hcase⟩ := foodStep_cases h
  rw [hsnake] at hs1
  simp only [List.cons.injEq] at hs1
  obtain ⟨rfl, -⟩ := hs1
  rcases hcase with ⟨hno, rfl⟩ | ⟨hyes, foodX1, foodY1, pos1, s1, -, hlev, rfl⟩
  · simp [hno]
  · have f1 := levelUpStep_frame hlev
    have f2 := activateRandomSnake_frame2 s1
    simp only at f1
    rw [f2.1, f2.2.1, f2.2.2.1, f2.2.2.2.1, f2.2.2.2.2.1, f2.2.2.2.2.2.1,
      f1.1, f1.2.1, f1.2.2.1, f1.2.2.2.1, f1.2.2.2.2.1, f1.2.2.2.2.2.1]
    simp [hyes]

/-- The two ways through the banana phase. -/
theorem bananaEatStep_cases {s s' : Session} {head : SnakeSegment} {tl : List SnakeSegment}
    (hsnake : s.snake = head :: tl) (h : bananaEatStep s = some s') :
    ((s.bananaActive && checkBananaCollision s.bananaX s.bananaY head) = true ∧
      s' = { s with grow := true, score := s.score + 3, bananaActive := false,
                    pointsSinceLastBanana := 0 }) ∨
    ((s.bananaActive && checkBananaCollision s.bananaX s.bananaY head) = false ∧ s' = s) := by
  unfold bananaEatStep at h
  split at h
  · simp at h
  · rename_i head1 tl1 hs1
    rw [hsnake] at hs1
    simp only [List.cons.injEq] at hs1
    obtain ⟨rfl, -⟩ := hs1
    split at h
    · rename_i hc
      simp only [Option.some.injEq] at h
      left; exact ⟨hc, h.symm⟩
    · rename_i hc
      simp only [Option.some.injEq] at h
      right; exact ⟨by simpa using hc, h.symm⟩

theorem collisionStep_frame2 {s s' : Session} (h : collisionStep s = some s') :
    s'.bananaActive = s.bananaActive ∧ s'.bananaSpawnTime = s.bananaSpawnTime ∧
    s'.pointsSinceLastBanana = s.pointsSinceLastBanana ∧ s'.score = s.score := by
  unfold collisionStep at h
  split at h
  · simp at h
  · simp only [Option.some.injEq] at h; subst h; simp
  · split at h
    · split at h
      · simp at h
      · simp only [Option.some.injEq] at h; subst h; simp
      · simp only [Option.some.injEq] at h; subst h; simp
    · simp only [Option.some.injEq] at h; subst h; simp

theorem bananaSpawnStep_skip {rand : Nat → Nat} {fuel : Nat} {inp : LoopInput}
    {s s' : Session} (h : bananaSpawnStep rand fuel inp s = some s')
    (hno : s.bananaActive = true ∨ s.pointsSinceLastBanana < 3) : s' = s := by
  unfold bananaSpawnStep at h
  split at h
  · rename_i hc
    simp only [Bool.and_eq_true, decide_eq_true_eq, Bool.not_eq_true'] at hc
    rcases hno with h1 | h1
    · rw [h1] at hc; simp at hc
    · omega
  · simp only [Option.some.injEq] at h; exact h.symm

theorem randomSnakeStep_frame2 {rand : Nat → Nat} {inp : LoopInput}
    {s s' : Session} (h : randomSnakeStep rand inp s = some s') :
    s'.bananaActive = s.bananaActive ∧ s'.score = s.score := by
  unfold randomSnakeStep at h
  split at h
  · split at h
    · simp at h
    · simp only [Option.some.injEq] at h; subst h; simp
  · simp only [Option.some.injEq] at h; subst h; simp

theorem checkFoodCollision_iff (fx fy : Int) (head : SnakeSegment) :
    checkFoodCollision fx fy head = true ↔ head = { x := fx, y := fy } := by
  cases head
  simp [checkFoodCollision]

theorem checkBananaCollision_iff (bx bY : Int) (head : SnakeSegment) :
    checkBananaCollision bx bY head = true ↔ head = { x := bx, y := bY } := by
  cases head
  simp [checkBananaCollision]

/-- C11 (counterexample): the banana appeared at time 1000 and lies on the
cell ahead of the head; the playing tick runs at time 7000, more than 5000 ms
later, and the banana is still collected: the score goes from 5 to 8. -/
theorem banana_eaten_after_lifetime :
    bananaLateSession.bananaActive = true ∧
    bananaLateSession.score = 5 ∧
    5000 ≤ u32sub (getTicks 7000) bananaLateSession.bananaSpawnTime ∧
    (playingTick (randOf []) 1 (tickAt [] 7000) bananaLateSession).map
        (fun t => (t.score, t.bananaActive)) = some (8, false) := by
  decide

/-- C11 (amended): in a playing tick whose clock reading at the expiry test
(line 762) is at least 5000 ms after the spawn time of the active banana, the
banana is inactive after the tick. The score gains 3 exactly when the cell
ahead of the head is the banana cell (the collision test of line 740 runs
before the expiry test), and 1 exactly when it is the food cell. -/
theorem banana_expiry (rand : Nat → Nat) (fuel : Nat) (inp : LoopInput)
    (s s' : Session) (front : SnakeSegment) (rest : List SnakeSegment)
    (htick : playingTick rand fuel inp s = some s')
    (hactive : s.bananaActive = true)
    (hsnake : s.snake = front :: rest)
    (hold : 5000 ≤ u32sub (getTicks inp.bananaCheck) s.bananaSpawnTime) :
    s'.bananaActive = false ∧
    s'.score = s.score +
      (if neighbour front s.direction = { x := s.foodX, y := s.foodY } then 1 else 0) +
      (if neighbour front s.direction = { x := s.bananaX, y := s.bananaY } then 3 else 0) := by
  obtain ⟨s1, s2, s3, s4, s5, h1, h2, h3, h4, h5, h6⟩ := playingTick_phases htick
  obtain ⟨snake1, g1, hmove, rfl⟩ := moveStep_eq h1
  rw [hsnake, updateSnake_cons] at hmove
  simp only [Option.some.injEq, Prod.mk.injEq] at hmove
  obtain ⟨hsn, -⟩ := hmove
  have f2 := foodStep_frame hsn.symm h2
  simp only at f2
  obtain ⟨f2snake, f2score, f2active, f2x, f2y, f2time⟩ := f2
  have hs2 : s2.snake = neighbour front s.direction ::
      (if s.grow = true then front :: rest else (front :: rest).dropLast) := by
    rw [f2snake, ← hsn]
  have f4 := collisionStep_frame2 h4
  have f6 := randomSnakeStep_frame2 h6
  have hfood : (checkFoodCollision s.foodX s.foodY (neighbour front s.direction) = true) ↔
      neighbour front s.direction = { x := s.foodX, y := s.foodY } :=
    checkFoodCollision_iff _ _ _
  have hscore2 : s2.score = s.score +
      (if neighbour front s.direction = { x := s.foodX, y := s.foodY } then 1 else 0) := by
    rw [f2score]
    by_cases hf : neighbour front s.direction = { x := s.foodX, y := s.foodY }
    · rw [if_pos (hfood.mpr hf), if_pos hf]
    · rw [if_neg (fun h => hf (hfood.mp h)), if_neg hf]
  have hexp : (bananaExpireStep inp (speedStep s4)).score = s4.score := by
    unfold bananaExpireStep
    split <;> simp [speedStep]
  rcases bananaEatStep_cases hs2 h3 with ⟨hc, hs3⟩ | ⟨hc, hs3⟩
  · -- the banana is eaten
    simp only [Bool.and_eq_true] at hc
    have hb : neighbour front s.direction = { x := s.bananaX, y := s.bananaY } := by
      have := (checkBananaCollision_iff _ _ _).mp hc.2
      rw [f2x, f2y] at this
      exact this
    have e3 : s3.bananaActive = false ∧ s3.pointsSinceLastBanana = 0 ∧
        s3.score = s2.score + 3 := by
      rw [hs3]; exact ⟨rfl, rfl, rfl⟩
    have hpts : (speedStep s4).pointsSinceLastBanana < 3 := by
      simp only [speedStep]
      rw [f4.2.2.1, e3.2.1]
      decide
    have hskip := bananaSpawnStep_skip h5 (Or.inr hpts)
    subst hskip
    have hact : s4.bananaActive = false := by rw [f4.1, e3.1]
    constructor
    · rw [f6.1]
      unfold bananaExpireStep
      simp [speedStep, hact]
    · rw [f6.2, hexp, f4.2.2.2, e3.2.2, if_pos hb, hscore2]
  · -- the banana is not eaten
    have hact2 : s2.bananaActive = true := by rw [f2active]; exact hactive
    have hb : ¬ neighbour front s.direction = { x := s.bananaX, y := s.bananaY } := by
      intro hb
      have : checkBananaCollision s2.bananaX s2.bananaY (neighbour front s.direction) = true := by
        rw [f2x, f2y]
        exact (checkBananaCollision_iff _ _ _).mpr hb
      simp [hact2, this] at hc
    have hact4 : s4.bananaActive = true := by rw [f4.1, hs3]; exact hact2
    have hskip := bananaSpawnStep_skip h5 (Or.inl (by simp [speedStep, hact4]))
    subst hskip
    have htime4 : s4.bananaSpawnTime = s.bananaSpawnTime := by rw [f4.2.1, hs3, f2time]
    constructor
    · rw [f6.1]
      unfold bananaExpireStep
      have hcond : ((speedStep s4).bananaActive &&
          decide (u32sub (getTicks inp.bananaCheck) (speedStep s4).bananaSpawnTime
            >= bananaLifetime)) = true := by
        simp only [speedStep, hact4, htime4, bananaLifetime, Bool.true_and, decide_eq_true_eq]
        exact hold
      rw [if_pos hcond]
    · rw [f6.2, hexp, f4.2.2.2, hs3, if_neg hb, hscore2]
      omega

/-- The witness of C11 (amended): the tick at time 7000 from
`bananaLateSession`, whose banana appeared at time 1000. -/
theorem banana_expiry_witness :
    playingTick (randOf []) 1 (tickAt [] 7000) bananaLateSession = some bananaLateResult ∧
    bananaLateResult.score = 8 ∧
    (bananaLateResult.bananaActive = false ∧
     bananaLateResult.score = bananaLateSession.score +
        (if neighbour { x := 400, y := 300 } bananaLateSession.direction =
            { x := bananaLateSession.foodX, y := bananaLateSession.foodY } then 1 else 0) +
        (if neighbour { x := 400, y := 300 } bananaLateSession.direction =
            { x := bananaLateSession.bananaX, y := bananaLateSession.bananaY } then 3 else 0)) :=
  ⟨by decide, by decide,
   banana_expiry (randOf []) 1 (tickAt [] 7000) bananaLateSession bananaLateResult
     { x := 400, y := 300 } bananaLateSession.snake.tail (by decide) (by decide) (by decide)
     (by decide)⟩

/-! ## Stones on the snake, and the first cells of the random snake -/

/-- C15 (evaluation at the failing input): for the snake cells (425,300),
(425,325), (425,350) and the random values 8, 6, 2, 8, 4, 8,
`generateObstacles` returns a first stone at (400,300), which overlaps the
cells (425,300) and (425,325): no snake cell equals the stone's corner. In the
game, the tick that takes the food at (425,300) with score 14 at level 2
places that stone on the head and ends in `GAME_OVER`. -/
theorem stone_placed_on_snake :
    generateObstacles (randOf [8, 6, 2, 8, 4, 8]) 1 0
        [{ x := 425, y := 300 }, { x := 425, y := 325 }, { x := 425, y := 350 }] =
      some ([{ x := 400, y := 300, w := 50, h := 50 }, { x := 100, y := 400, w := 50, h := 50 },
             { x := 200, y := 400, w := 50, h := 50 }], 6) ∧
    overlaps { x := 425, y := 300 } { x := 400, y := 300, w := 50, h := 50 } ∧
    overlaps { x := 425, y := 325 } { x := 400, y := 300, w := 50, h := 50 } ∧
    (playingTick (randOf [2, 2, 8, 6, 2, 8, 4, 8]) 1 quietInput beforeLevelThree).map
        (fun t => (t.snake.head?, t.obstacles.head?, t.score, t.currentLevel, t.state)) =
      some (some { x := 425, y := 300 }, some { x := 400, y := 300, w := 50, h := 50 },
            15, "level 3", GameState.GAME_OVER) := by
  decide

/-- C19 (evaluation at the failing input): when the first random value is 31,
the random snake starts at `x = 775`, and its second and third cells, at
`x = 800` and `x = 825`, are not cells of the board. -/
theorem randomSnake_starts_off_board :
    (initSession (randOf [31, 2, 3, 4, 5]) 1 0 0 0).map (fun t => t.randomSnake.segments) =
      some [{ x := 775, y := 50 }, { x := 800, y := 50 }, { x := 825, y := 50 }] ∧
    ¬ onBoard { x := 800, y := 50 } ∧ ¬ onBoard { x := 825, y := 50 } := by
  decide

/-! ## The snake invariant -/

theorem checkCollision_false {head : SnakeSegment} {rest : List SnakeSegment}
    {obstacles : List SDL_Rect} (h : checkCollision (head :: rest) obstacles = some false) :
    0 ≤ head.x ∧ head.x < 800 ∧ 0 ≤ head.y ∧ head.y < 600 ∧ head ∉ rest := by
  unfold checkCollision at h
  simp only [SCREEN_WIDTH, SCREEN_HEIGHT, ge_iff_le] at h
  split at h
  · simp at h
  · rename_i hb
    split at h
    · simp at h
    · rename_i hself
      refine ⟨by omega, by omega, by omega, by omega, ?_⟩
      intro hmem
      apply hself
      simp only [List.any_eq_true, Bool.and_eq_true, beq_iff_eq]
      exact ⟨head, hmem, rfl, rfl⟩

theorem collisionStep_alive {s s' : Session} (h : collisionStep s = some s')
    (halive : s'.state ≠ GameState.GAME_OVER) :
    checkCollision s.snake s.obstacles = some false := by
  unfold collisionStep at h
  split at h
  · simp at h
  · simp only [Option.some.injEq] at h; subst h
    exact absurd rfl halive
  · rename_i hc
    exact hc

theorem neighbour_aligned (front : SnakeSegment) (d : Direction) (h : onBoard front) :
    (neighbour front d).x % 25 = 0 ∧ (neighbour front d).y % 25 = 0 := by
  unfold onBoard at h
  cases d <;> simp only [neighbour] <;> omega

/-- A playing tick that does not end in `GAME_OVER` keeps the snake
invariant. -/
theorem playingTick_goodSnake {rand : Nat → Nat} {fuel : Nat} {inp : LoopInput}
    {s s' : Session} (h : playingTick rand fuel inp s = some s') (hgood : goodSnake s.snake)
    (halive : s'.state ≠ GameState.GAME_OVER) : goodSnake s'.snake := by
  obtain ⟨s1, s2, s3, s4, s5, h1, h2, h3, h4, h5, h6⟩ := playingTick_phases h
  obtain ⟨hne, hnodup, hboard⟩ := hgood
  obtain ⟨front, rest, hsnake⟩ : ∃ front rest, s.snake = front :: rest := by
    cases hs : s.snake with
    | nil => exact absurd hs hne
    | cons a l => exact ⟨a, l, rfl⟩
  obtain ⟨snake1, g1, hmove, rfl⟩ := moveStep_eq h1
  rw [hsnake, updateSnake_cons] at hmove
  simp only [Option.some.injEq, Prod.mk.injEq] at hmove
  obtain ⟨hsn, -⟩ := hmove
  have f2 := foodStep_frame hsn.symm h2
  simp only at f2
  have f3 := bananaEatStep_frame h3
  have f4 := collisionStep_frame h4
  have f5 := bananaSpawnStep_frame h5
  have f6 := randomSnakeStep_frame h6
  have f7 := bananaExpireStep_frame inp s5
  have hstate : s'.state = s4.state := by
    rw [f6.1, f7.1, f5.1]; simp [speedStep]
  have hsnake' : s'.snake = snake1 := by
    rw [f6.2.2.2, f7.2.2.2, f5.2.2.2]
    simp only [speedStep]
    rw [f4.2.2.2, f3.2.2.2, f2.1]
  have hcol := collisionStep_alive h4 (by rw [← hstate]; exact halive)
  rw [f3.2.2.2, f2.1, ← hsn] at hcol
  obtain ⟨hx0, hx1, hy0, hy1, hnotin⟩ := checkCollision_false hcol
  have hfront : onBoard front := hboard front (by rw [hsnake]; simp)
  have halign := neighbour_aligned front s.direction hfront
  have htail_sub : (if s.grow = true then front :: rest else (front :: rest).dropLast)
      ⊆ front :: rest := by
    split
    · exact fun _ hx => hx
    · exact List.dropLast_subset _
  have htail_nodup : (if s.grow = true then front :: rest else (front :: rest).dropLast).Nodup := by
    split
    · rw [← hsnake]; exact hnodup
    · exact List.Nodup.sublist (List.dropLast_sublist _) (by rw [← hsnake]; exact hnodup)
  rw [hsnake', ← hsn]
  refine ⟨by simp, List.nodup_cons.mpr ⟨hnotin, htail_nodup⟩, ?_⟩
  intro c hc
  rcases List.mem_cons.mp hc with rfl | hc
  · exact ⟨halign.1, halign.2, hx0, hx1, hy0, hy1⟩
  · exact hboard c (by rw [hsnake]; exact htail_sub hc)

theorem handleEvents_not_gameOver (events : List Event) (c : Controls)
    (h : (handleEvents events c).state = GameState.GAME_OVER) :
    c.state = GameState.GAME_OVER := by
  induction events generalizing c with
  | nil => exact h
  | cons e rest ih =>
    have h1 : (handleEvent c e).state = GameState.GAME_OVER := ih _ h
    rcases handleEvent_state c e with h2 | ⟨-, h2⟩ | ⟨-, h2⟩ | ⟨-, h2⟩
    · rw [← h2]; exact h1
    · rw [h2] at h1; cases h1
    · rw [h2] at h1; cases h1
    · rw [h2] at h1; cases h1

/-- One iteration of the main loop keeps "`GAME_OVER` or the snake invariant". -/
theorem loopBody_goodSnake {rand : Nat → Nat} {fuel : Nat} {inp : LoopInput}
    {s s' : Session} (h : loopBody rand fuel inp s = some s')
    (hinv : s.state = GameState.GAME_OVER ∨ goodSnake s.snake) :
    s'.state = GameState.GAME_OVER ∨ goodSnake s'.snake := by
  rcases hinv with hover | hgood
  · left
    obtain ⟨hb, hst⟩ := loopBody_gameOver rand fuel inp s hover
    rw [hb] at h
    simp only [Option.some.injEq] at h
    rw [← h]; exact hst
  · have fe := applyEvents_frame inp.events s
    have hgood0 : goodSnake (applyEvents inp.events s).snake := by rw [fe.1]; exact hgood
    unfold loopBody at h
    simp only at h
    split at h
    · by_cases halive : s'.state = GameState.GAME_OVER
      · left; exact halive
      · right; exact playingTick_goodSnake h hgood0 halive
    · simp only [Option.some.injEq] at h; subst h
      right
      have : (levelUpTick inp (applyEvents inp.events s)).snake
          = (applyEvents inp.events s).snake := by
        unfold levelUpTick
        simp only
        split <;> split <;> simp
      rw [this]; exact hgood0
    · simp only [Option.some.injEq] at h; subst h
      right
      have : (countdownTick inp (applyEvents inp.events s)).snake
          = (applyEvents inp.events s).snake := by
        unfold countdownTick
        split <;> simp
      rw [this]; exact hgood0
    · simp only [Option.some.injEq] at h; subst h
      right; exact hgood0
    · simp only [Option.some.injEq] at h; subst h
      right; exact hgood0
    · simp only [Option.some.injEq] at h; subst h
      right; exact hgood0

theorem initSession_snake {rand : Nat → Nat} {fuel startTime : Nat} {bananaX0 bananaY0 : Int}
    {s0 : Session} (h : initSession rand fuel startTime bananaX0 bananaY0 = some s0) :
    s0.snake = [{ x := 400, y := 300 }] ∧ s0.state = GameState.MENU := by
  unfold initSession at h
  simp only at h
  split at h
  · simp at h
  · simp only [Option.some.injEq] at h
    subst h
    exact ⟨by simp [SCREEN_WIDTH, SCREEN_HEIGHT], rfl⟩

/-- C18: in every session reached from the initial one by a run of the main
loop (any events, clock readings and random values), if the state is not
`GAME_OVER` then the snake is non-empty, its cells are pairwise distinct, and
every cell has coordinates multiples of 25 inside `[0,800) x [0,600)`. -/
theorem snake_invariant (rand : Nat → Nat) (fuel startTime : Nat) (bananaX0 bananaY0 : Int)
    (inputs : List LoopInput) (s0 s : Session)
    (hinit : initSession rand fuel startTime bananaX0 bananaY0 = some s0)
    (hrun : mainLoop rand fuel inputs s0 = some s)
    (halive : s.state ≠ GameState.GAME_OVER) :
    s.snake ≠ [] ∧ s.snake.Nodup ∧
    ∀ c ∈ s.snake, c.x % 25 = 0 ∧ c.y % 25 = 0 ∧ 0 ≤ c.x ∧ c.x < 800 ∧ 0 ≤ c.y ∧ c.y < 600 := by
  have h0 := initSession_snake hinit
  have hinv0 : s0.state = GameState.GAME_OVER ∨ goodSnake s0.snake := by
    right
    rw [h0.1]
    refine ⟨by simp, by simp, ?_⟩
    intro c hc
    simp only [List.mem_singleton] at hc
    subst hc
    unfold onBoard
    decide
  have hinv := mainLoop_invariant
    (fun u => u.state = GameState.GAME_OVER ∨ goodSnake u.snake)
    (fun inp u u' hu hb => loopBody_goodSnake hb hu) inputs s0 s hinv0 hrun
  rcases hinv with hover | hgood
  · exact absurd hover halive
  · exact hgood

/-- The witness of C18: the sample game after seven food points, a snake of
7 cells on the row `y = 300`. -/
theorem snake_invariant_witness :
    demo7.snake.length = 7 ∧
    (demo7.snake ≠ [] ∧ demo7.snake.Nodup ∧
     ∀ c ∈ demo7.snake,
       c.x % 25 = 0 ∧ c.y % 25 = 0 ∧ 0 ≤ c.x ∧ c.x < 800 ∧ 0 ≤ c.y ∧ c.y < 600) :=
  ⟨by decide,
   snake_invariant demoRand 1 0 0 0 demoPre demo0 demo7 (by decide) (by decide) (by decide)⟩

end SnakeGame
